import Mathlib

/-!
Verification of the HMP (3D GameStudio heightmap) importer,
`code/AssetLib/HMP/HMPLoader.cpp`, as a shallow embedding.

Modelling conventions:
* The input byte buffer is a structure carrying the total size, the raw
  byte content (`byte : Nat → Nat`, little-endian multi-byte reads), and
  the already-decoded fixed header fields.  The header struct overlay
  (`Header_HMP5`, declared in `HMPFileData.h`, which is outside the
  sources verified here) is abstracted into typed fields; the spec states
  the header is a fixed-size record ending at byte 120 whose fields are
  read at fixed offsets.
* IEEE 754 `float` values are modelled exactly: a float is either a
  finite rational, an infinity, or NaN.  Arithmetic on finite values is
  exact rational arithmetic (float rounding is not modelled).
* C++ exceptions (`DeadlyImportError`) become the `Except` monad: a
  throw aborts the decode with a typed error and no scene is returned.
* Reads of the buffer that the C++ performs without a preceding bounds
  check are instrumented: if such a read would go past the end of the
  buffer the embedded decoder returns the distinguished outcome
  `DecodeErr.oobRead` (standing for C++ undefined behaviour), which is
  distinct from every error the program itself can throw.
-/

set_option maxHeartbeats 1000000

namespace HMP

/-- Model of a 32-bit IEEE float value: a finite rational, an infinity
or NaN.  Rounding of finite arithmetic is not modelled (exact rationals). -/
inductive F where
  | fin (q : ℚ)
  | inf
  | ninf
  | nan
deriving DecidableEq

/-- The check `std::isfinite`. -/
def F.isFinite : F → Bool
  | .fin _ => true
  | _ => false

/-- C++ truth test `!x` on a float is true exactly when the value compares
equal to zero (NaN and infinities are nonzero). -/
def F.isZero : F → Bool
  | .fin q => q == 0
  | _ => false

/-- The rational value of a finite float (0 for non-finite values; only
used after finiteness has been validated). -/
def F.toRat : F → ℚ
  | .fin q => q
  | _ => 0

/-- IEEE `<` comparison: false whenever either side is NaN. -/
def F.ltF : F → F → Bool
  | .nan, _ => false
  | _, .nan => false
  | .ninf, .ninf => false
  | .ninf, _ => true
  | _, .ninf => false
  | .inf, _ => false
  | .fin _, .inf => true
  | .fin a, .fin b => a < b

/-- IEEE division restricted to what the decoder can reach: a finite
numerator divided by a finite denominator.  Division by zero follows the
IEEE signs; the remaining cases are unreachable in the decoder (the
denominator has been checked finite first) and are mapped to NaN. -/
def F.divF : F → F → F
  | .fin a, .fin b =>
      if b = 0 then (if a = 0 then .nan else if a > 0 then .inf else .ninf)
      else .fin (a / b)
  | _, _ => .nan

/-- Typed decode errors; one constructor per `DeadlyImportError` site plus
the instrumentation outcome `oobRead` for an unchecked read past the end
of the buffer (C++ undefined behaviour, not a program error path). -/
inductive DecodeErr where
  | tooSmall
  | headerTooSmall
  | invalidHeader (msg : String)
  | truncatedInput
  | unreadableSkinChunk
  | unknownSubformat (magic : Nat)
  | unsupportedRevision
  | oobRead
deriving DecidableEq

deriving instance DecidableEq for Except

/-- The input: total byte count, raw byte content, and the decoded fixed
header fields (the `Header_HMP5` overlay abstracted into typed values). -/
structure HmpBuffer where
  size : Nat
  byte : Nat → Nat
  ftrisize_x : F
  ftrisize_y : F
  numverts : Nat
  fnumverts_x : F
  numframes : Nat
  numskins : Nat

/-- Little-endian 32-bit read of the raw bytes at `off`. -/
def u32At (b : HmpBuffer) (off : Nat) : Nat :=
  b.byte off + 256 * b.byte (off + 1) + 65536 * b.byte (off + 2) +
    16777216 * b.byte (off + 3)

/-- Little-endian 16-bit read of the raw bytes at `off`. -/
def u16At (b : HmpBuffer) (off : Nat) : Nat :=
  b.byte off + 256 * b.byte (off + 1)

/-- An instrumented unchecked 32-bit read: the C++ dereferences the
cursor without a bounds check, so a read past the end is undefined
behaviour, modelled as the distinguished `oobRead` outcome. -/
def readU32 (b : HmpBuffer) (off : Nat) : Except DecodeErr Nat :=
  if off + 4 ≤ b.size then .ok (u32At b off) else .error .oobRead

/-- Instrumented unchecked 16-bit read. -/
def readU16 (b : HmpBuffer) (off : Nat) : Except DecodeErr Nat :=
  if off + 2 ≤ b.size then .ok (u16At b off) else .error .oobRead

/-- Instrumented unchecked single-byte read. -/
def readByte (b : HmpBuffer) (off : Nat) : Except DecodeErr Nat :=
  if off + 1 ≤ b.size then .ok (b.byte off) else .error .oobRead

/-- Modelled from the spec: the Bounds Guard (`MDLImporter::SizeCheck`,
declared outside the sources verified here) fails with `TruncatedInput`
when a cursor position, or a projected future read extent, exceeds the
total buffer extent.  A position equal to the end of the buffer passes. -/
def SizeCheck (b : HmpBuffer) (pos : Nat) : Except DecodeErr Unit :=
  if pos ≤ b.size then .ok () else .error .truncatedInput

/-- The `int8_t` reinterpretation of a byte. -/
def toInt8 (v : Nat) : Int :=
  if v % 256 < 128 then (v % 256 : Int) else (v % 256 : Int) - 256

/-- Modelled from the spec: magic token of revision HMP4, bytes
`H M P 4` at offset 0 read as a little-endian `uint32_t`. -/
def MAGIC_HMP4_A : Nat := 0x34504D48

/-- Modelled from the spec: byte-swapped (other-endian) HMP4 token. -/
def MAGIC_HMP4_B : Nat := 0x484D5034

/-- Modelled from the spec: magic token of revision HMP5 (one endianness). -/
def MAGIC_HMP5_A : Nat := 0x35504D48

/-- Modelled from the spec: magic token of revision HMP5 (other endianness). -/
def MAGIC_HMP5_B : Nat := 0x484D5035

/-- Modelled from the spec: magic token of revision HMP7 (one endianness). -/
def MAGIC_HMP7_A : Nat := 0x37504D48

/-- Modelled from the spec: magic token of revision HMP7 (other endianness). -/
def MAGIC_HMP7_B : Nat := 0x484D5037

/-- Error message of the triangle-size finiteness check. -/
def msgTriNotFinite : String :=
  "Size of triangles in either x or y direction is not finite"

/-- Error message of the triangle-size zero check. -/
def msgTriZero : String :=
  "Size of triangles in either x or y direction is zero"

/-- Error message of the `fnumverts_x` finiteness check. -/
def msgNumXNotFinite : String :=
  "Number of triangles in x direction is not finite"

/-- Error message of the grid-size check. -/
def msgNumZero : String :=
  "Number of triangles in either x or y direction is zero"

/-- Error message of the frame-count check. -/
def msgNoFrames : String :=
  "There are no frames. At least one should be there"

/-- Source `HMPImporter::ValidateHeader_HMP457`: the five numeric sanity checks,
in source order, each throwing a distinct `DeadlyImportError`, preceded
by the 120-byte minimum-size check. -/
def ValidateHeader_HMP457 (b : HmpBuffer) : Except DecodeErr Unit :=
  if b.size < 120 then .error .headerTooSmall
  else if !(b.ftrisize_x.isFinite && b.ftrisize_y.isFinite) then
    .error (.invalidHeader msgTriNotFinite)
  else if b.ftrisize_x.isZero || b.ftrisize_y.isZero then
    .error (.invalidHeader msgTriZero)
  else if !b.fnumverts_x.isFinite then
    .error (.invalidHeader msgNumXNotFinite)
  else if F.ltF b.fnumverts_x (.fin 1) ||
      F.ltF (F.divF (.fin (b.numverts : ℚ)) b.fnumverts_x) (.fin 1) then
    .error (.invalidHeader msgNumZero)
  else if b.numframes = 0 then
    .error (.invalidHeader msgNoFrames)
  else .ok ()

/-- The claim's reading of header validation (C5), written from the
spec's words: the five conditions in the spec's order, each a distinct
fatal condition, positive phrasing.  Compared against
`ValidateHeader_HMP457` as a refinement. -/
def specHeaderCascade (b : HmpBuffer) : Except DecodeErr Unit :=
  if b.ftrisize_x.isFinite && b.ftrisize_y.isFinite then
    if !b.ftrisize_x.isZero && !b.ftrisize_y.isZero then
      if b.fnumverts_x.isFinite then
        if !F.ltF b.fnumverts_x (.fin 1) &&
            !F.ltF (F.divF (.fin (b.numverts : ℚ)) b.fnumverts_x) (.fin 1) then
          if 1 ≤ b.numframes then .ok ()
          else .error (.invalidHeader msgNoFrames)
        else .error (.invalidHeader msgNumZero)
      else .error (.invalidHeader msgNumXNotFinite)
    else .error (.invalidHeader msgTriZero)
  else .error (.invalidHeader msgTriNotFinite)

/-- Derived `width = (unsigned int)pcHeader->fnumverts_x` (truncation of a value
validated to be at least 1). -/
def widthOf (b : HmpBuffer) : Nat :=
  Nat.floor b.fnumverts_x.toRat

/-- Derived `height = (unsigned int)(pcHeader->numverts / pcHeader->fnumverts_x)`. -/
def heightOf (b : HmpBuffer) : Nat :=
  Nat.floor (F.divF (.fin (b.numverts : ℚ)) b.fnumverts_x).toRat

/-- A world-space vector with exact rational coordinates. -/
structure V3 where
  x : ℚ
  y : ℚ
  z : ℚ
deriving DecidableEq

/-- The zero vector (`aiVector3D` default construction). -/
def V3.zero : V3 := ⟨0, 0, 0⟩

/-- A vertex normal.  `lookup162 i` stands for the entry of the external
MD2 162-entry normal table at index `i` (the table itself is outside the
sources verified here); `unitHMP7 nx ny` stands for the unit-normalized
vector `(nx / 128, ny / 128, 1)` of the HMP7 per-vertex decode (the
normalization introduces a square root and is kept symbolic). -/
inductive Nrm where
  | zeroN
  | lookup162 (idx : Nat)
  | unitHMP7 (nx ny : Int)
deriving DecidableEq

/-- The material deposited into the scene: either the default material
built when the header has no skins, or the material produced by the
external `ParseSkinLump_3DGS_MDL7` collaborator from the first skin
chunk's type, width and height. -/
inductive Material where
  | defaultMat
  | fromSkin (type w h : Nat)
deriving DecidableEq

/-- An output face: `mNumIndices`, the number of index slots allocated
with `new unsigned int[4]`, and the values stored in those slots
(`none` = the slots were allocated but never written, as happens when the
defensive guard in `CreateOutputFaceList` skips a cell). -/
structure Face where
  mNumIndices : Nat
  allocatedIndices : Nat
  vals : Option (List Nat)
deriving DecidableEq

/-- The fully populated face of cell number `k` (indices assigned from
the running counter `iCurrent = 4 * k`). -/
def popFace (k : Nat) : Face :=
  ⟨4, 4, some [4 * k, 4 * k + 1, 4 * k + 2, 4 * k + 3]⟩

structure Mesh where
  materialIndex : Nat
  numVertices : Nat
  vertices : List V3
  normals : List Nrm
  uvs : Option (List V3)
  faces : List Face
deriving DecidableEq

structure RootNode where
  name : String
  meshIndices : List Nat
deriving DecidableEq

structure Scene where
  meshes : List Mesh
  materials : List Material
  rootNode : Option RootNode
  terrainFlag : Bool
deriving DecidableEq

/-- Modelled from the spec: the HMP5 per-vertex record (`Vertex_HMP5`,
declared outside the sources verified here) is one 16-bit height field,
one 8-bit normal-index field and one byte of padding: 4 bytes. -/
def vertexRecordSizeHMP5 : Nat := 4

/-- Modelled from the spec: the HMP7 per-vertex record (`Vertex_HMP7`)
is one 16-bit height field and two 8-bit signed normal components:
4 bytes. -/
def vertexRecordSizeHMP7 : Nat := 4

/-- One iteration of the HMP5 vertex loop: record number `i` sits at
byte offset `cur + 4 * i`; the loop runs rows outer, columns inner, so
`i` is the cell `(x, y) = (i % w, i / w)`.
`pcVertOut->x = x * ftrisize_x`, `pcVertOut->y = y * ftrisize_y`,
`pcVertOut->z = ((src->z / 0xffff) - 0.5) * ftrisize_x * 8.0`, and the
normal is looked up in the MD2 table by the stored index byte. -/
def decodeVertex5 (b : HmpBuffer) (cur w : Nat) (tx ty : ℚ) (i : Nat) :
    Except DecodeErr (V3 × Nrm) := do
  let z ← readU16 b (cur + 4 * i)
  let ni ← readByte b (cur + 4 * i + 2)
  .ok (⟨(i % w : Nat) * tx, (i / w : Nat) * ty,
        ((z : ℚ) / 65535 - 1 / 2) * tx * 8⟩, .lookup162 ni)

/-- One iteration of the HMP7 vertex loop: same position formulas; the
normal is `(normal_x / 0x80, normal_y / 0x80, 1)` normalized, with the
two stored bytes reinterpreted as signed 8-bit integers. -/
def decodeVertex7 (b : HmpBuffer) (cur w : Nat) (tx ty : ℚ) (i : Nat) :
    Except DecodeErr (V3 × Nrm) := do
  let z ← readU16 b (cur + 4 * i)
  let nx ← readByte b (cur + 4 * i + 2)
  let ny ← readByte b (cur + 4 * i + 3)
  .ok (⟨(i % w : Nat) * tx, (i / w : Nat) * ty,
        ((z : ℚ) / 65535 - 1 / 2) * tx * 8⟩, .unitHMP7 (toInt8 nx) (toInt8 ny))

/-- Runs `f 0, f 1, ..., f (n-1)` in order, collecting the results (the
vertex loops advance source and destination cursors in lockstep). -/
def gridMap (f : Nat → Except DecodeErr α) : Nat → Except DecodeErr (List α)
  | 0 => .ok []
  | Nat.succ k => do
      let xs ← gridMap f k
      let x ← f k
      .ok (xs ++ [x])

/-- Source `HMPImporter::GenerateTextureCoords`: per-grid-cell UV values written
into the `numverts`-sized UV array allocated by `CreateMaterial`; entries
beyond the `width * height` grid keep their default-constructed zero
value, and a zero width or height leaves the whole array at its default. -/
def GenerateTextureCoords (w h numverts : Nat) : List V3 :=
  if w = 0 ∨ h = 0 then List.replicate numverts V3.zero
  else
    (List.range numverts).map fun i =>
      if i < w * h then
        ⟨((1 / (w : ℚ)) + (1 / (w : ℚ)) / (w : ℚ)) * (i % w : Nat),
         ((1 / (h : ℚ)) + (1 / (h : ℚ)) / (h : ℚ)) * (i / w : Nat), 0⟩
      else V3.zero

/-- Reading entry `i` of an in-memory array that was allocated with
`l.length` entries: instrumented like the raw buffer reads. -/
def readAt (l : List α) (i : Nat) : Except DecodeErr α :=
  match l.get? i with
  | some v => .ok v
  | none => .error .oobRead

/-- The per-cell state of `CreateOutputFaceList`: faces built so far, the
duplicated vertex/normal/uv entries written so far, and `iCurrent`. -/
structure FLState where
  faces : List Face
  verts : List V3
  norms : List Nrm
  uvs : List V3
  ic : Nat
deriving DecidableEq

/-- The cells `(x, y)` of the face loop in iteration order: `y` outer
over `height - 1`, `x` inner over `width - 1`.  (At the only call sites
`width` and `height` are at least 1, so the natural subtraction agrees
with the C++ unsigned arithmetic.) -/
def cellList (w h : Nat) : List (Nat × Nat) :=
  (List.range (h - 1)).flatMap fun y =>
    (List.range (w - 1)).map fun x => (x, y)

/-- The UV copies of one face-loop iteration: nothing if no UV array was
allocated, otherwise the four corner entries in winding order. -/
def readCellUVs (gu : Option (List V3)) (o0 o1 x : Nat) :
    Except DecodeErr (List V3) :=
  match gu with
  | none => .ok []
  | some l => do
      let u0 ← readAt l (o0 + x)
      let u1 ← readAt l (o1 + x)
      let u2 ← readAt l (o1 + x + 1)
      let u3 ← readAt l (o0 + x + 1)
      .ok [u0, u1, u2, u3]

/-- One face-loop iteration of `CreateOutputFaceList`: the face always
gets `mNumIndices = 4` and a 4-slot index allocation; if either guard
`offset0 + x + 1 >= upperBound` or `offset1 + x + 1 >= upperBound` fires
the iteration continues without writing anything else; otherwise the
four corner vertices, normals and (if present) UVs are copied and the
four indices are assigned from `iCurrent`. -/
def flCell (gv : List V3) (gn : List Nrm) (gu : Option (List V3))
    (w ub : Nat) (st : FLState) : Nat × Nat → Except DecodeErr FLState
  | (x, y) =>
    let o0 := y * w
    let o1 := (y + 1) * w
    if ub ≤ o0 + x + 1 ∨ ub ≤ o1 + x + 1 then
      .ok { st with faces := st.faces ++ [⟨4, 4, none⟩] }
    else do
      let v0 ← readAt gv (o0 + x)
      let v1 ← readAt gv (o1 + x)
      let v2 ← readAt gv (o1 + x + 1)
      let v3 ← readAt gv (o0 + x + 1)
      let n0 ← readAt gn (o0 + x)
      let n1 ← readAt gn (o1 + x)
      let n2 ← readAt gn (o1 + x + 1)
      let n3 ← readAt gn (o0 + x + 1)
      let us ← readCellUVs gu o0 o1 x
      .ok ⟨st.faces ++ [⟨4, 4, some [st.ic, st.ic + 1, st.ic + 2, st.ic + 3]⟩],
           st.verts ++ [v0, v1, v2, v3],
           st.norms ++ [n0, n1, n2, n3],
           st.uvs ++ us,
           st.ic + 4⟩

/-- Folds the face loop over its cells. -/
def flFold (gv : List V3) (gn : List Nrm) (gu : Option (List V3))
    (w ub : Nat) : List (Nat × Nat) → FLState → Except DecodeErr FLState
  | [], st => .ok st
  | c :: cs, st => do
      let st2 ← flCell gv gn gu w ub st c
      flFold gv gn gu w ub cs st2

/-- The result of `CreateOutputFaceList`: the face list and the freshly
duplicated vertex/normal/uv buffers that replace the grid buffers. -/
structure FaceListResult where
  faces : List Face
  numVertices : Nat
  verts : List V3
  norms : List Nrm
  uvs : Option (List V3)
deriving DecidableEq

/-- Source `HMPImporter::CreateOutputFaceList`: `mNumFaces = (width-1)*(height-1)`,
`mNumVertices = mNumFaces * 4`; the guard bound `upperBound` is
`mNumVertices`; the duplicated buffers are allocated at `mNumVertices`
entries, the face loop writes a prefix of them, and the remaining entries
keep their default-constructed zero value. -/
def CreateOutputFaceList (gv : List V3) (gn : List Nrm)
    (gu : Option (List V3)) (w h : Nat) : Except DecodeErr FaceListResult := do
  let nf := (w - 1) * (h - 1)
  let nv := nf * 4
  let st ← flFold gv gn gu w nv (cellList w h) ⟨[], [], [], [], 0⟩
  .ok { faces := st.faces,
        numVertices := nv,
        verts := st.verts ++ List.replicate (nv - st.verts.length) V3.zero,
        norms := st.norms ++ List.replicate (nv - st.norms.length) .zeroN,
        uvs := gu.map fun _ =>
          st.uvs ++ List.replicate (nv - st.uvs.length) V3.zero }

/-- The skin-chunk head read of `HMPImporter::ReadFirstSkin` (lines
432-447): read the 4-byte type tag; if it is 0, skip 8 further bytes and
re-read it once, failing if still 0; then read 4-byte width and height.
None of these reads is preceded by a `SizeCheck` in the source. -/
def readSkinHead (b : HmpBuffer) (cur : Nat) :
    Except DecodeErr (Nat × Nat × Nat × Nat) := do
  let t0 ← readU32 b cur
  if t0 = 0 then do
    let t1 ← readU32 b (cur + 12)
    if t1 = 0 then .error .unreadableSkinChunk
    else do
      let w ← readU32 b (cur + 16)
      let h ← readU32 b (cur + 20)
      .ok (t1, w, h, cur + 24)
  else do
    let w ← readU32 b (cur + 4)
    let h ← readU32 b (cur + 8)
    .ok (t0, w, h, cur + 12)

/-- Modelled from the spec: the external image collaborator
`ParseSkinLump_3DGS_MDL7` (outside the sources verified here) decodes the
first skin's payload bounds-checked and advances the cursor past it; the
payload length is a function `plen` of type, width and height, computed
identically by the read and the skip paths. -/
def ParseSkinLump (plen : Nat → Nat → Nat → Nat) (b : HmpBuffer)
    (t w h cur : Nat) : Except DecodeErr Nat := do
  let _ ← SizeCheck b (cur + plen t w h)
  .ok (cur + plen t w h)

/-- The skip loop of `HMPImporter::ReadFirstSkin` (lines 457-468), one
iteration per remaining skin: `SizeCheck(szCursor + 12)`, read
type/width/height, advance past the payload via the external
`SkipSkinLump_3DGS_MDL7` (modelled from the spec as a pure cursor
advance by the shared payload length), then `SizeCheck(szCursor)`. -/
def skipSkins (plen : Nat → Nat → Nat → Nat) (b : HmpBuffer) :
    Nat → Nat → Except DecodeErr Nat
  | 0, cur => .ok cur
  | Nat.succ k, cur => do
      let _ ← SizeCheck b (cur + 12)
      let t ← readU32 b cur
      let w ← readU32 b (cur + 4)
      let h ← readU32 b (cur + 8)
      let cur2 := cur + 12 + plen t w h
      let _ ← SizeCheck b cur2
      skipSkins plen b k cur2

/-- Source `HMPImporter::ReadFirstSkin`: read the first skin chunk's head,
materialize its material through the external collaborator, then skip
the remaining `iNumSkins - 1` skins. -/
def ReadFirstSkin (plen : Nat → Nat → Nat → Nat) (b : HmpBuffer)
    (iNumSkins cur : Nat) : Except DecodeErr (Material × Nat) := do
  let hd ← readSkinHead b cur
  let cur2 ← ParseSkinLump plen b hd.1 hd.2.1 hd.2.2.1 hd.2.2.2
  let cur3 ← skipSkins plen b (iNumSkins - 1) cur2
  .ok (.fromSkin hd.1 hd.2.1 hd.2.2.1, cur3)

/-- Source `HMPImporter::CreateMaterial`: with a nonzero skin count the UV array
is allocated and the first skin is read (cursor starts at byte 84);
otherwise the default material is produced and the cursor is untouched.
The returned Bool records whether the UV array was allocated. -/
def CreateMaterial (plen : Nat → Nat → Nat → Nat) (b : HmpBuffer) :
    Except DecodeErr (Material × Bool × Nat) :=
  if b.numskins ≠ 0 then do
    let r ← ReadFirstSkin plen b b.numskins 84
    .ok (r.1, true, r.2)
  else .ok (.defaultMat, false, 84)

/-- Source `HMPImporter::InternReadFile_HMP5`: validate the header, create the
material (cursor at 84), skip the 36-byte gap, size-check the whole
projected vertex extent (the source writes `sizeof(Vertex_HMP7)` here),
decode the `height * width` vertex grid into the `numverts`-sized arrays,
generate UVs if skins are present, build the face list, and attach the
single mesh to a fresh root node. -/
def InternReadFile_HMP5 (plen : Nat → Nat → Nat → Nat) (b : HmpBuffer) :
    Except DecodeErr Scene := do
  let _ ← ValidateHeader_HMP457 b
  let h := heightOf b
  let w := widthOf b
  let mc ← CreateMaterial plen b
  let cur := mc.2.2 + 36
  let _ ← SizeCheck b (cur + vertexRecordSizeHMP7 * (h * w))
  let grid ← gridMap
    (decodeVertex5 b cur w b.ftrisize_x.toRat b.ftrisize_y.toRat) (h * w)
  let gv := grid.map Prod.fst ++ List.replicate (b.numverts - h * w) V3.zero
  let gn := grid.map Prod.snd ++ List.replicate (b.numverts - h * w) .zeroN
  let gu := if mc.2.1 then some (GenerateTextureCoords w h b.numverts) else none
  let r ← CreateOutputFaceList gv gn gu w h
  .ok { meshes := [{ materialIndex := 0, numVertices := r.numVertices,
                     vertices := r.verts, normals := r.norms,
                     uvs := r.uvs, faces := r.faces }],
        materials := [mc.1],
        rootNode := some ⟨"terrain_root", [0]⟩,
        terrainFlag := false }

/-- Source `HMPImporter::InternReadFile_HMP7`: identical pipeline with the HMP7
per-vertex decode. -/
def InternReadFile_HMP7 (plen : Nat → Nat → Nat → Nat) (b : HmpBuffer) :
    Except DecodeErr Scene := do
  let _ ← ValidateHeader_HMP457 b
  let h := heightOf b
  let w := widthOf b
  let mc ← CreateMaterial plen b
  let cur := mc.2.2 + 36
  let _ ← SizeCheck b (cur + vertexRecordSizeHMP7 * (h * w))
  let grid ← gridMap
    (decodeVertex7 b cur w b.ftrisize_x.toRat b.ftrisize_y.toRat) (h * w)
  let gv := grid.map Prod.fst ++ List.replicate (b.numverts - h * w) V3.zero
  let gn := grid.map Prod.snd ++ List.replicate (b.numverts - h * w) .zeroN
  let gu := if mc.2.1 then some (GenerateTextureCoords w h b.numverts) else none
  let r ← CreateOutputFaceList gv gn gu w h
  .ok { meshes := [{ materialIndex := 0, numVertices := r.numVertices,
                     vertices := r.verts, normals := r.norms,
                     uvs := r.uvs, faces := r.faces }],
        materials := [mc.1],
        rootNode := some ⟨"terrain_root", [0]⟩,
        terrainFlag := false }

/-- Source `HMPImporter::InternReadFile`: reject buffers smaller than 50 bytes,
read the 4-byte magic, dispatch on the six recognized tokens (HMP4 is
recognized but unsupported), and set the terrain scene flag after a
successful sub-decode. -/
def InternReadFile (plen : Nat → Nat → Nat → Nat) (b : HmpBuffer) :
    Except DecodeErr Scene :=
  if b.size < 50 then .error .tooSmall
  else do
    let magic ← readU32 b 0
    if magic = MAGIC_HMP4_A ∨ magic = MAGIC_HMP4_B then
      .error .unsupportedRevision
    else if magic = MAGIC_HMP5_A ∨ magic = MAGIC_HMP5_B then do
      let s ← InternReadFile_HMP5 plen b
      .ok { s with terrainFlag := true }
    else if magic = MAGIC_HMP7_A ∨ magic = MAGIC_HMP7_B then do
      let s ← InternReadFile_HMP7 plen b
      .ok { s with terrainFlag := true }
    else .error (.unknownSubformat magic)

end HMP

namespace HMP

/-- The value the HMP5 vertex loop writes for record `i` (pure form). -/
def vertex5At (b : HmpBuffer) (cur w : Nat) (tx ty : ℚ) (i : Nat) : V3 × Nrm :=
  (⟨(i % w : Nat) * tx, (i / w : Nat) * ty,
    ((u16At b (cur + 4 * i) : ℚ) / 65535 - 1 / 2) * tx * 8⟩,
   .lookup162 (b.byte (cur + 4 * i + 2)))

/-- The value the HMP7 vertex loop writes for record `i` (pure form). -/
def vertex7At (b : HmpBuffer) (cur w : Nat) (tx ty : ℚ) (i : Nat) : V3 × Nrm :=
  (⟨(i % w : Nat) * tx, (i / w : Nat) * ty,
    ((u16At b (cur + 4 * i) : ℚ) / 65535 - 1 / 2) * tx * 8⟩,
   .unitHMP7 (toInt8 (b.byte (cur + 4 * i + 2))) (toInt8 (b.byte (cur + 4 * i + 3))))

/-- The four grid entries the face loop copies for cell `c = (x, y)`:
corners `(x,y), (x,y+1), (x+1,y+1), (x+1,y)` in source winding order. -/
def cellVals {α : Type} (d : α) (l : List α) (w : Nat) (c : Nat × Nat) :
    List α :=
  [l.getD (c.2 * w + c.1) d, l.getD ((c.2 + 1) * w + c.1) d,
   l.getD ((c.2 + 1) * w + c.1 + 1) d, l.getD (c.2 * w + c.1 + 1) d]

/-- The UV entries copied for a cell (nothing when no UV array exists). -/
def cellUVs (gu : Option (List V3)) (w : Nat) (c : Nat × Nat) : List V3 :=
  match gu with
  | none => []
  | some l => cellVals V3.zero l w c

/-- The face built for the `j`-th cell processed when `iCurrent` started
at `ic`. -/
def popFaceAt (ic j : Nat) : Face :=
  ⟨4, 4, some [ic + 4 * j, ic + 4 * j + 1, ic + 4 * j + 2, ic + 4 * j + 3]⟩

/-- All bounds a face-loop cell needs so that its guard does not fire and
all twelve array reads are in bounds. -/
def cellOK (gv : List V3) (gn : List Nrm) (gu : Option (List V3))
    (w ub : Nat) (c : Nat × Nat) : Prop :=
  c.2 * w + c.1 + 1 < ub ∧ (c.2 + 1) * w + c.1 + 1 < ub ∧
  (c.2 + 1) * w + c.1 + 1 < gv.length ∧ (c.2 + 1) * w + c.1 + 1 < gn.length ∧
  ∀ l, gu = some l → (c.2 + 1) * w + c.1 + 1 < l.length


end HMP

namespace HMP

/-! ### Concrete instances used by the witness theorems -/

/-- A trivial payload-length collaborator (empty payloads). -/
def plen0 : Nat → Nat → Nat → Nat := fun _ _ _ => 0

/-- A payload-length collaborator with 4-byte payloads. -/
def plen4 : Nat → Nat → Nat → Nat := fun _ _ _ => 4

/-- A minimal well-formed HMP5 file: magic `H M P 5`, a one-by-one vertex
grid, no skins, 124 bytes. -/
def bOK : HmpBuffer :=
  { size := 124
    byte := fun i => [72, 77, 80, 53].getD i 0
    ftrisize_x := .fin 1
    ftrisize_y := .fin 1
    numverts := 1
    fnumverts_x := .fin 1
    numframes := 1
    numskins := 0 }

/-- The same file cut one byte short of its vertex payload. -/
def bTrunc : HmpBuffer := { bOK with size := 123 }

/-- The scene `bOK` decodes to. -/
def sceneOK : Scene :=
  { meshes := [{ materialIndex := 0, numVertices := 0, vertices := [],
                 normals := [], uvs := none, faces := [] }],
    materials := [.defaultMat],
    rootNode := some ⟨"terrain_root", [0]⟩,
    terrainFlag := true }

/-- A buffer carrying three skin chunks at offsets 84, 100 and 116, each
with type tag 1, zero width/height and a 4-byte payload. -/
def bSkins : HmpBuffer :=
  { size := 132
    byte := fun i => if i = 84 ∨ i = 100 ∨ i = 116 then 1 else 0
    ftrisize_x := .fin 1
    ftrisize_y := .fin 1
    numverts := 1
    fnumverts_x := .fin 1
    numframes := 1
    numskins := 3 }

/-- The same skins but the buffer ends before the third chunk's header
can be skipped. -/
def bSkinsTrunc : HmpBuffer := { bSkins with size := 120 }

/-- Skin chunk with a nonzero type tag at cursor 0. -/
def bC7A : HmpBuffer :=
  ⟨24, fun i => if i = 0 then 1 else 0, .fin 1, .fin 1, 1, .fin 1, 1, 1⟩

/-- Skin chunk whose first tag reads 0 and whose re-read tag (offset 12)
is nonzero: the double-header quirk. -/
def bC7B : HmpBuffer :=
  ⟨24, fun i => if i = 12 then 1 else 0, .fin 1, .fin 1, 1, .fin 1, 1, 1⟩

/-- Skin chunk whose tag is 0 both before and after the retry. -/
def bC7C : HmpBuffer :=
  ⟨24, fun _ => 0, .fin 1, .fin 1, 1, .fin 1, 1, 1⟩

/-- A 3 by 2 vertex payload whose six records all carry the quantized
height 32767 (bytes 255, 127 little-endian) and zero normal bytes. -/
def bC8 : HmpBuffer :=
  ⟨24, fun i => if i % 4 = 0 then 255 else if i % 4 = 1 then 127 else 0,
   .fin 2, .fin 2, 6, .fin 3, 1, 0⟩

/-- The HMP5 decode of `bC8` at spacing 2: every z is -8/65535. -/
def gridC8v5 : List (V3 × Nrm) :=
  [(⟨0, 0, -8/65535⟩, .lookup162 0), (⟨2, 0, -8/65535⟩, .lookup162 0),
   (⟨4, 0, -8/65535⟩, .lookup162 0), (⟨0, 2, -8/65535⟩, .lookup162 0),
   (⟨2, 2, -8/65535⟩, .lookup162 0), (⟨4, 2, -8/65535⟩, .lookup162 0)]

/-- The HMP7 decode of `bC8` at spacing 2. -/
def gridC8v7 : List (V3 × Nrm) :=
  [(⟨0, 0, -8/65535⟩, .unitHMP7 0 0), (⟨2, 0, -8/65535⟩, .unitHMP7 0 0),
   (⟨4, 0, -8/65535⟩, .unitHMP7 0 0), (⟨0, 2, -8/65535⟩, .unitHMP7 0 0),
   (⟨2, 2, -8/65535⟩, .unitHMP7 0 0), (⟨4, 2, -8/65535⟩, .unitHMP7 0 0)]

/-- A three-entry vertex grid: too short for a 3 by 2 face grid, whose
cells read indices up to 5. -/
def gv3 : List V3 := List.replicate 3 V3.zero

/-- Matching three-entry normal grid. -/
def gn3 : List Nrm := List.replicate 3 Nrm.zeroN

/-- A six-entry vertex grid fitting a 3 by 2 face loop exactly. -/
def gv6 : List V3 := List.replicate 6 V3.zero

/-- Matching six-entry normal grid. -/
def gn6 : List Nrm := List.replicate 6 Nrm.zeroN

/-- A four-entry vertex grid for the 2 by 2 witness. -/
def gv4 : List V3 := List.replicate 4 V3.zero

/-- Matching four-entry normal grid. -/
def gn4 : List Nrm := List.replicate 4 Nrm.zeroN

end HMP

namespace HMP

/-! ### Basic read and bounds-guard lemmas -/

theorem readU32_eq_ok {b : HmpBuffer} {off : Nat} (h : off + 4 ≤ b.size) :
    readU32 b off = .ok (u32At b off) := by
  unfold readU32; rw [if_pos h]

theorem readU16_eq_ok {b : HmpBuffer} {off : Nat} (h : off + 2 ≤ b.size) :
    readU16 b off = .ok (u16At b off) := by
  unfold readU16; rw [if_pos h]

theorem readByte_eq_ok {b : HmpBuffer} {off : Nat} (h : off + 1 ≤ b.size) :
    readByte b off = .ok (b.byte off) := by
  unfold readByte; rw [if_pos h]

theorem SizeCheck_pass {b : HmpBuffer} {pos : Nat} (h : pos ≤ b.size) :
    SizeCheck b pos = .ok () := by
  unfold SizeCheck; rw [if_pos h]

theorem SizeCheck_fail {b : HmpBuffer} {pos : Nat} (h : b.size < pos) :
    SizeCheck b pos = .error .truncatedInput := by
  unfold SizeCheck; rw [if_neg (by omega)]

/-! ### Header validation -/

theorem exceptBindErr {α β : Type} {e : DecodeErr}
    (f : α → Except DecodeErr β) :
    (Except.error e >>= f) = Except.error e := rfl

theorem exceptBindOk {α β : Type} (a : α) (f : α → Except DecodeErr β) :
    (Except.ok a >>= f) = f a := rfl

theorem validate_err_form {b : HmpBuffer} {e : DecodeErr}
    (h : ValidateHeader_HMP457 b = .error e) :
    e = .headerTooSmall ∨ ∃ m, e = .invalidHeader m := by
  unfold ValidateHeader_HMP457 at h
  split_ifs at h <;> simp_all <;> tauto

/-- Everything a successful header validation guarantees, in exact
rational form. -/
theorem validate_ok_facts {b : HmpBuffer}
    (hval : ValidateHeader_HMP457 b = .ok ()) :
    120 ≤ b.size ∧
    ∃ q : ℚ, b.fnumverts_x = .fin q ∧ 1 ≤ q ∧ 1 ≤ (b.numverts : ℚ) / q ∧
      widthOf b = Nat.floor q ∧
      heightOf b = Nat.floor ((b.numverts : ℚ) / q) := by
  unfold ValidateHeader_HMP457 at hval
  split_ifs at hval with h1 h2 h3 h4 h5 h6 <;> try simp at hval
  refine ⟨by omega, ?_⟩
  cases hfx : b.fnumverts_x with
  | inf => rw [hfx] at h4; simp [F.isFinite] at h4
  | ninf => rw [hfx] at h4; simp [F.isFinite] at h4
  | nan => rw [hfx] at h4; simp [F.isFinite] at h4
  | fin q =>
      rw [hfx] at h5
      rw [Bool.or_eq_true] at h5
      push_neg at h5
      obtain ⟨h5a, h5b⟩ := h5
      have hq1 : 1 ≤ q := by
        simp [F.ltF] at h5a; exact h5a
      have hqne : q ≠ 0 := by
        intro h0; rw [h0] at hq1; norm_num at hq1
      have hdiv : F.divF (.fin (b.numverts : ℚ)) (.fin q) =
          .fin ((b.numverts : ℚ) / q) := by
        simp [F.divF, hqne]
      rw [hdiv] at h5b
      have hq2 : 1 ≤ (b.numverts : ℚ) / q := by
        simp [F.ltF] at h5b; exact h5b
      exact ⟨q, rfl, hq1, hq2, by simp [widthOf, hfx, F.toRat],
        by simp [heightOf, hfx, hdiv, F.toRat]⟩

/-- The grid derived by floor-truncation never outgrows the allocated
vertex count: `width * height ≤ numverts` (exact arithmetic). -/
theorem grid_le_numverts {b : HmpBuffer}
    (hval : ValidateHeader_HMP457 b = .ok ()) :
    widthOf b * heightOf b ≤ b.numverts := by
  obtain ⟨-, q, -, hq1, hq2, hw, hh⟩ := validate_ok_facts hval
  rw [hw, hh]
  have hq0 : (0 : ℚ) ≤ q := le_trans zero_le_one hq1
  have hd0 : (0 : ℚ) ≤ (b.numverts : ℚ) / q := le_trans zero_le_one hq2
  have hfq : ((Nat.floor q : Nat) : ℚ) ≤ q := Nat.floor_le hq0
  have hfd : ((Nat.floor ((b.numverts : ℚ) / q) : Nat) : ℚ) ≤ (b.numverts : ℚ) / q :=
    Nat.floor_le hd0
  have hmul : ((Nat.floor q * Nat.floor ((b.numverts : ℚ) / q) : Nat) : ℚ) ≤
      q * ((b.numverts : ℚ) / q) := by
    push_cast
    exact mul_le_mul hfq hfd (by positivity) hq0
  rw [mul_comm q, div_mul_cancel₀ _ (by positivity : q ≠ 0)] at hmul
  exact_mod_cast hmul

/-! ### Vertex grid decoding -/

theorem decodeVertex5_ok {b : HmpBuffer} {cur w : Nat} {tx ty : ℚ} {i : Nat}
    (h : cur + 4 * i + 4 ≤ b.size) :
    decodeVertex5 b cur w tx ty i = .ok (vertex5At b cur w tx ty i) := by
  unfold decodeVertex5 vertex5At
  rw [readU16_eq_ok (by omega), readByte_eq_ok (by omega)]
  rfl

theorem decodeVertex7_ok {b : HmpBuffer} {cur w : Nat} {tx ty : ℚ} {i : Nat}
    (h : cur + 4 * i + 4 ≤ b.size) :
    decodeVertex7 b cur w tx ty i = .ok (vertex7At b cur w tx ty i) := by
  unfold decodeVertex7 vertex7At
  rw [readU16_eq_ok (by omega), readByte_eq_ok (by omega),
    readByte_eq_ok (by omega)]
  rfl

theorem gridMap_ok_of {α : Type} {f : Nat → Except DecodeErr α} {g : Nat → α}
    {n : Nat} (hf : ∀ i < n, f i = .ok (g i)) :
    gridMap f n = .ok ((List.range n).map g) := by
  induction n with
  | zero => simp [gridMap]
  | succ k ih =>
      unfold gridMap
      rw [ih (fun i hi => hf i (by omega)), exceptBindOk, hf k (by omega),
        exceptBindOk, List.range_succ]
      simp

theorem gridMap_ok_length {α : Type} {f : Nat → Except DecodeErr α}
    {n : Nat} {l : List α} (h : gridMap f n = .ok l) : l.length = n := by
  induction n generalizing l with
  | zero => unfold gridMap at h; simp_all
  | succ k ih =>
      unfold gridMap at h
      cases hg : gridMap f k with
      | error e => rw [hg, exceptBindErr] at h; exact absurd h (by simp)
      | ok xs =>
          rw [hg, exceptBindOk] at h
          cases hf : f k with
          | error e => rw [hf, exceptBindErr] at h; exact absurd h (by simp)
          | ok x =>
              rw [hf, exceptBindOk] at h
              have hl : xs ++ [x] = l := by
                simpa using h
              rw [← hl]
              simp [ih hg]

end HMP

namespace HMP

/-! ### Skin chunk lemmas -/

theorem readSkinHead_nonzero {b : HmpBuffer} {cur : Nat}
    (h12 : cur + 12 ≤ b.size) (ht : u32At b cur ≠ 0) :
    readSkinHead b cur =
      .ok (u32At b cur, u32At b (cur + 4), u32At b (cur + 8), cur + 12) := by
  unfold readSkinHead
  rw [readU32_eq_ok (by omega), exceptBindOk, if_neg ht,
    readU32_eq_ok (by omega), exceptBindOk, readU32_eq_ok (by omega),
    exceptBindOk]

theorem readSkinHead_retry {b : HmpBuffer} {cur : Nat}
    (h24 : cur + 24 ≤ b.size) (ht0 : u32At b cur = 0)
    (ht1 : u32At b (cur + 12) ≠ 0) :
    readSkinHead b cur =
      .ok (u32At b (cur + 12), u32At b (cur + 16), u32At b (cur + 20),
        cur + 24) := by
  unfold readSkinHead
  rw [readU32_eq_ok (by omega), exceptBindOk, if_pos ht0,
    readU32_eq_ok (by omega), exceptBindOk, if_neg ht1,
    readU32_eq_ok (by omega), exceptBindOk, readU32_eq_ok (by omega),
    exceptBindOk]

theorem readSkinHead_fail {b : HmpBuffer} {cur : Nat}
    (h16 : cur + 16 ≤ b.size) (ht0 : u32At b cur = 0)
    (ht1 : u32At b (cur + 12) = 0) :
    readSkinHead b cur = .error .unreadableSkinChunk := by
  unfold readSkinHead
  rw [readU32_eq_ok (by omega), exceptBindOk, if_pos ht0,
    readU32_eq_ok (by omega), exceptBindOk, if_pos ht1]

theorem skipSkins_zero {plen : Nat → Nat → Nat → Nat} {b : HmpBuffer}
    {cur : Nat} : skipSkins plen b 0 cur = .ok cur := rfl

theorem skipSkins_step {plen : Nat → Nat → Nat → Nat} {b : HmpBuffer}
    {k cur : Nat} (h12 : cur + 12 ≤ b.size)
    (hp : cur + 12 + plen (u32At b cur) (u32At b (cur + 4)) (u32At b (cur + 8))
      ≤ b.size) :
    skipSkins plen b (k + 1) cur =
      skipSkins plen b k
        (cur + 12 + plen (u32At b cur) (u32At b (cur + 4)) (u32At b (cur + 8))) := by
  simp only [skipSkins]
  rw [SizeCheck_pass h12, exceptBindOk, readU32_eq_ok (by omega), exceptBindOk,
    readU32_eq_ok (by omega), exceptBindOk, readU32_eq_ok (by omega),
    exceptBindOk, SizeCheck_pass hp, exceptBindOk]

theorem skipSkins_fail_hdr {plen : Nat → Nat → Nat → Nat} {b : HmpBuffer}
    {k cur : Nat} (h : b.size < cur + 12) :
    skipSkins plen b (k + 1) cur = .error .truncatedInput := by
  simp only [skipSkins]
  rw [SizeCheck_fail h, exceptBindErr]

theorem skipSkins_fail_payload {plen : Nat → Nat → Nat → Nat} {b : HmpBuffer}
    {k cur : Nat} (h12 : cur + 12 ≤ b.size)
    (hp : b.size <
      cur + 12 + plen (u32At b cur) (u32At b (cur + 4)) (u32At b (cur + 8))) :
    skipSkins plen b (k + 1) cur = .error .truncatedInput := by
  simp only [skipSkins]
  rw [SizeCheck_pass h12, exceptBindOk, readU32_eq_ok (by omega), exceptBindOk,
    readU32_eq_ok (by omega), exceptBindOk, readU32_eq_ok (by omega),
    exceptBindOk, SizeCheck_fail hp, exceptBindErr]

theorem skipSkins_ok_or_trunc (plen : Nat → Nat → Nat → Nat) (b : HmpBuffer) :
    ∀ (k cur : Nat), (∃ c, skipSkins plen b k cur = .ok c) ∨
      skipSkins plen b k cur = .error .truncatedInput := by
  intro k
  induction k with
  | zero => intro cur; exact Or.inl ⟨cur, rfl⟩
  | succ k ih =>
      intro cur
      by_cases h12 : cur + 12 ≤ b.size
      · by_cases hp : cur + 12 +
            plen (u32At b cur) (u32At b (cur + 4)) (u32At b (cur + 8)) ≤ b.size
        · rw [skipSkins_step h12 hp]; exact ih _
        · exact Or.inr (skipSkins_fail_payload h12 (by omega))
      · exact Or.inr (skipSkins_fail_hdr (by omega))

theorem ReadFirstSkin_of_head {plen : Nat → Nat → Nat → Nat} {b : HmpBuffer}
    {n cur t w h cur1 : Nat}
    (hhead : readSkinHead b cur = .ok (t, w, h, cur1))
    (hp : cur1 + plen t w h ≤ b.size) :
    ReadFirstSkin plen b n cur =
      (skipSkins plen b (n - 1) (cur1 + plen t w h)).bind
        (fun c => .ok (.fromSkin t w h, c)) := by
  unfold ReadFirstSkin ParseSkinLump
  rw [hhead, exceptBindOk]
  rw [SizeCheck_pass hp]
  rfl

theorem ReadFirstSkin_parse_trunc {plen : Nat → Nat → Nat → Nat}
    {b : HmpBuffer} {n cur t w h cur1 : Nat}
    (hhead : readSkinHead b cur = .ok (t, w, h, cur1))
    (hp : b.size < cur1 + plen t w h) :
    ReadFirstSkin plen b n cur = .error .truncatedInput := by
  unfold ReadFirstSkin ParseSkinLump
  rw [hhead, exceptBindOk]
  rw [SizeCheck_fail hp]
  rfl

theorem ReadFirstSkin_head_err {plen : Nat → Nat → Nat → Nat}
    {b : HmpBuffer} {n cur : Nat} {e : DecodeErr}
    (hhead : readSkinHead b cur = .error e) :
    ReadFirstSkin plen b n cur = .error e := by
  unfold ReadFirstSkin
  rw [hhead]
  rfl

theorem ReadFirstSkin_ok_or_err (plen : Nat → Nat → Nat → Nat)
    (b : HmpBuffer) (n cur : Nat) (h24 : cur + 24 ≤ b.size) :
    (∃ m c, ReadFirstSkin plen b n cur = .ok (m, c)) ∨
      ReadFirstSkin plen b n cur = .error .truncatedInput ∨
      ReadFirstSkin plen b n cur = .error .unreadableSkinChunk := by
  by_cases ht0 : u32At b cur = 0
  · by_cases ht1 : u32At b (cur + 12) = 0
    · exact Or.inr (Or.inr
        (ReadFirstSkin_head_err (readSkinHead_fail (by omega) ht0 ht1)))
    · have hhead := readSkinHead_retry h24 ht0 ht1
      by_cases hp : cur + 24 +
          plen (u32At b (cur + 12)) (u32At b (cur + 16)) (u32At b (cur + 20))
          ≤ b.size
      · rw [ReadFirstSkin_of_head hhead hp]
        rcases skipSkins_ok_or_trunc plen b (n - 1) _ with ⟨c, hc⟩ | hc
        · rw [hc]; exact Or.inl ⟨_, c, rfl⟩
        · rw [hc]; exact Or.inr (Or.inl rfl)
      · exact Or.inr (Or.inl (ReadFirstSkin_parse_trunc hhead (by omega)))
  · have hhead := readSkinHead_nonzero (by omega) ht0
    by_cases hp : cur + 12 +
        plen (u32At b cur) (u32At b (cur + 4)) (u32At b (cur + 8)) ≤ b.size
    · rw [ReadFirstSkin_of_head hhead hp]
      rcases skipSkins_ok_or_trunc plen b (n - 1) _ with ⟨c, hc⟩ | hc
      · rw [hc]; exact Or.inl ⟨_, c, rfl⟩
      · rw [hc]; exact Or.inr (Or.inl rfl)
    · exact Or.inr (Or.inl (ReadFirstSkin_parse_trunc hhead (by omega)))

theorem CreateMaterial_cases (plen : Nat → Nat → Nat → Nat) (b : HmpBuffer)
    (h120 : 120 ≤ b.size) :
    (∃ m u c, CreateMaterial plen b = .ok (m, u, c)) ∨
      CreateMaterial plen b = .error .truncatedInput ∨
      CreateMaterial plen b = .error .unreadableSkinChunk := by
  unfold CreateMaterial
  by_cases hs : b.numskins ≠ 0
  · rw [if_pos hs]
    rcases ReadFirstSkin_ok_or_err plen b b.numskins 84 (by omega) with
      ⟨m, c, hc⟩ | hc | hc
    · rw [hc]; exact Or.inl ⟨m, true, c, rfl⟩
    · rw [hc]; exact Or.inr (Or.inl rfl)
    · rw [hc]; exact Or.inr (Or.inr rfl)
  · rw [if_neg hs]
    exact Or.inl ⟨.defaultMat, false, 84, rfl⟩

end HMP

namespace HMP

/-! ### Face list lemmas -/

theorem readAt_ok {α : Type} (d : α) {l : List α} {i : Nat}
    (h : i < l.length) : readAt l i = .ok (l.getD i d) := by
  unfold readAt
  cases hq : l.get? i with
  | none => exact absurd (List.get?_eq_none.mp hq) (by omega)
  | some v =>
      have hd : l.getD i d = v := by
        rw [List.get?_eq_getElem?] at hq
        simp [List.getD_eq_getElem?_getD, hq]
      rw [hd]

theorem readAt_err {α : Type} {l : List α} {i : Nat}
    (h : l.length ≤ i) : readAt l i = .error .oobRead := by
  unfold readAt
  rw [List.get?_eq_none.mpr h]

theorem popFaceAt_zero (j : Nat) : popFaceAt 0 j = popFace j := by
  simp [popFaceAt, popFace]

theorem sum_const_map {α : Type} (l : List α) (c : Nat) :
    (l.map fun _ => c).sum = l.length * c := by
  induction l with
  | nil => simp
  | cons a l ih => simp [ih, Nat.succ_mul]; omega

theorem length_flatMap_const4 {α β : Type} (f : α → List β)
    (hf : ∀ c, (f c).length = 4) (cs : List α) :
    (cs.flatMap f).length = 4 * cs.length := by
  rw [List.length_flatMap]
  have : cs.map (List.length ∘ f) = cs.map fun _ => 4 := by
    apply List.map_congr_left
    intro a _
    simp [Function.comp, hf a]
  rw [this, sum_const_map]
  omega

theorem cellList_length {w h : Nat} :
    (cellList w h).length = (h - 1) * (w - 1) := by
  rw [cellList, List.length_flatMap]
  have : (List.range (h - 1)).map
      (List.length ∘ fun y => (List.range (w - 1)).map fun x => (x, y)) =
      (List.range (h - 1)).map fun _ => w - 1 := by
    apply List.map_congr_left
    intro a _
    simp [Function.comp]
  rw [this, sum_const_map, List.length_range]

theorem mem_cellList {w h : Nat} {c : Nat × Nat} (hc : c ∈ cellList w h) :
    c.1 < w - 1 ∧ c.2 < h - 1 := by
  simp only [cellList, List.mem_flatMap, List.mem_map, List.mem_range] at hc
  obtain ⟨y, hy, x, hx, hcc⟩ := hc
  subst hcc
  exact ⟨hx, hy⟩

theorem cellList_nil {w h : Nat} (hwh : w ≤ 1 ∨ h ≤ 1) :
    cellList w h = [] := by
  rcases hwh with hw | hh
  · have : w - 1 = 0 := by omega
    simp [cellList, this]
  · have : h - 1 = 0 := by omega
    simp [cellList, this]

theorem wh_le_ub {w h : Nat} (hw : 2 ≤ w) (hh : 2 ≤ h) :
    w * h ≤ (w - 1) * (h - 1) * 4 := by
  obtain ⟨a, rfl⟩ : ∃ a, w = a + 2 := ⟨w - 2, by omega⟩
  obtain ⟨c, rfl⟩ : ∃ c, h = c + 2 := ⟨h - 2, by omega⟩
  have e1 : a + 2 - 1 = a + 1 := by omega
  have e2 : c + 2 - 1 = c + 1 := by omega
  rw [e1, e2]
  nlinarith [Nat.zero_le (a * c)]

theorem cell_lt_wh {w h x y : Nat} (hx : x < w - 1) (hy : y < h - 1) :
    (y + 1) * w + x + 1 < w * h := by
  have h1 : y + 1 ≤ h - 1 := by omega
  have h2 : (y + 1) * w ≤ (h - 1) * w := Nat.mul_le_mul_right w h1
  have h3 : (h - 1) * w + w = h * w := by
    rw [← Nat.succ_mul]; congr 1; omega
  have h4 : h * w = w * h := Nat.mul_comm h w
  omega

theorem flCell_pop {gv : List V3} {gn : List Nrm} {gu : Option (List V3)}
    {w ub : Nat} {c : Nat × Nat} (st : FLState)
    (hok : cellOK gv gn gu w ub c) :
    flCell gv gn gu w ub st c = .ok
      ⟨st.faces ++ [⟨4, 4, some [st.ic, st.ic + 1, st.ic + 2, st.ic + 3]⟩],
       st.verts ++ cellVals V3.zero gv w c,
       st.norms ++ cellVals Nrm.zeroN gn w c,
       st.uvs ++ cellUVs gu w c,
       st.ic + 4⟩ := by
  obtain ⟨x, y⟩ := c
  obtain ⟨hg0, hg1, hv, hn, hu⟩ := hok
  simp at hg0 hg1 hv hn hu
  have hyw : y * w ≤ (y + 1) * w := Nat.mul_le_mul_right w (by omega)
  simp only [flCell]
  rw [if_neg (by push_neg; exact ⟨by omega, by omega⟩)]
  cases gu with
  | none =>
      rw [readAt_ok V3.zero (by omega), exceptBindOk,
        readAt_ok V3.zero (by omega), exceptBindOk,
        readAt_ok V3.zero (by omega), exceptBindOk,
        readAt_ok V3.zero (by omega), exceptBindOk,
        readAt_ok Nrm.zeroN (by omega), exceptBindOk,
        readAt_ok Nrm.zeroN (by omega), exceptBindOk,
        readAt_ok Nrm.zeroN (by omega), exceptBindOk,
        readAt_ok Nrm.zeroN (by omega), exceptBindOk]
      rw [show readCellUVs none (y * w) ((y + 1) * w) x = .ok [] from rfl,
        exceptBindOk]
      rfl
  | some l =>
      have hul : (y + 1) * w + x + 1 < l.length := hu l rfl
      rw [readAt_ok V3.zero (by omega), exceptBindOk,
        readAt_ok V3.zero (by omega), exceptBindOk,
        readAt_ok V3.zero (by omega), exceptBindOk,
        readAt_ok V3.zero (by omega), exceptBindOk,
        readAt_ok Nrm.zeroN (by omega), exceptBindOk,
        readAt_ok Nrm.zeroN (by omega), exceptBindOk,
        readAt_ok Nrm.zeroN (by omega), exceptBindOk,
        readAt_ok Nrm.zeroN (by omega), exceptBindOk]
      simp only [readCellUVs]
      rw [readAt_ok V3.zero (by omega), exceptBindOk,
        readAt_ok V3.zero (by omega), exceptBindOk,
        readAt_ok V3.zero (by omega), exceptBindOk,
        readAt_ok V3.zero (by omega), exceptBindOk]
      rfl

theorem range_map_popFaceAt (ic n : Nat) :
    (List.range (n + 1)).map (popFaceAt ic) =
      popFaceAt ic 0 :: (List.range n).map (popFaceAt (ic + 4)) := by
  rw [List.range_succ_eq_map, List.map_cons, List.map_map]
  congr 1
  have : popFaceAt ic ∘ Nat.succ = popFaceAt (ic + 4) := by
    funext j
    have h1 : ic + 4 * (j + 1) = ic + 4 + 4 * j := by omega
    simp [Function.comp, popFaceAt, h1]
  rw [this]

theorem flFold_pop {gv : List V3} {gn : List Nrm} {gu : Option (List V3)}
    {w ub : Nat} :
    ∀ (cs : List (Nat × Nat)) (st : FLState),
      (∀ c ∈ cs, cellOK gv gn gu w ub c) →
      flFold gv gn gu w ub cs st = .ok
        ⟨st.faces ++ (List.range cs.length).map (popFaceAt st.ic),
         st.verts ++ cs.flatMap (cellVals V3.zero gv w),
         st.norms ++ cs.flatMap (cellVals Nrm.zeroN gn w),
         st.uvs ++ cs.flatMap (cellUVs gu w),
         st.ic + 4 * cs.length⟩ := by
  intro cs
  induction cs with
  | nil =>
      intro st _
      simp [flFold]
  | cons c cs ih =>
      intro st hcs
      simp only [flFold]
      rw [flCell_pop st (hcs c (by simp)), exceptBindOk,
        ih _ (fun c' hc' => hcs c' (by simp [hc']))]
      simp only [List.length_cons, List.flatMap_cons, Except.ok.injEq,
        FLState.mk.injEq]
      refine ⟨?_, by simp, by simp, by simp, by omega⟩
      rw [range_map_popFaceAt, List.append_assoc]
      rfl

end HMP

namespace HMP

theorem readCellUVs_length {gu : Option (List V3)} {o0 o1 x : Nat}
    {us : List V3} (h : readCellUVs gu o0 o1 x = .ok us) : us.length ≤ 4 := by
  cases gu with
  | none =>
      simp only [readCellUVs] at h
      injection h with h2
      rw [← h2]
      simp
  | some l =>
      simp only [readCellUVs] at h
      cases hu0 : readAt l (o0 + x) with
      | error e => rw [hu0, exceptBindErr] at h; exact absurd h (by simp)
      | ok u0 =>
      rw [hu0, exceptBindOk] at h
      cases hu1 : readAt l (o1 + x) with
      | error e => rw [hu1, exceptBindErr] at h; exact absurd h (by simp)
      | ok u1 =>
      rw [hu1, exceptBindOk] at h
      cases hu2 : readAt l (o1 + x + 1) with
      | error e => rw [hu2, exceptBindErr] at h; exact absurd h (by simp)
      | ok u2 =>
      rw [hu2, exceptBindOk] at h
      cases hu3 : readAt l (o0 + x + 1) with
      | error e => rw [hu3, exceptBindErr] at h; exact absurd h (by simp)
      | ok u3 =>
      rw [hu3, exceptBindOk] at h
      injection h with h2
      rw [← h2]
      simp

theorem flCell_shape {gv : List V3} {gn : List Nrm} {gu : Option (List V3)}
    {w ub : Nat} {st : FLState} {c : Nat × Nat} {st2 : FLState}
    (h : flCell gv gn gu w ub st c = .ok st2) :
    st2.faces.length = st.faces.length + 1 ∧
    st2.verts.length ≤ st.verts.length + 4 ∧
    st2.norms.length ≤ st.norms.length + 4 ∧
    st2.uvs.length ≤ st.uvs.length + 4 ∧
    (∀ f ∈ st2.faces,
      f ∈ st.faces ∨ (f.mNumIndices = 4 ∧ f.allocatedIndices = 4)) := by
  obtain ⟨x, y⟩ := c
  simp only [flCell] at h
  split at h
  · injection h with h2
    rw [← h2]
    refine ⟨by simp, by simp, by simp, by simp, ?_⟩
    intro f hf
    simp only [List.mem_append, List.mem_singleton] at hf
    rcases hf with hf | rfl
    · exact Or.inl hf
    · exact Or.inr ⟨rfl, rfl⟩
  · cases hv0 : readAt gv (y * w + x) with
    | error e => rw [hv0, exceptBindErr] at h; exact absurd h (by simp)
    | ok v0 =>
    rw [hv0, exceptBindOk] at h
    cases hv1 : readAt gv ((y + 1) * w + x) with
    | error e => rw [hv1, exceptBindErr] at h; exact absurd h (by simp)
    | ok v1 =>
    rw [hv1, exceptBindOk] at h
    cases hv2 : readAt gv ((y + 1) * w + x + 1) with
    | error e => rw [hv2, exceptBindErr] at h; exact absurd h (by simp)
    | ok v2 =>
    rw [hv2, exceptBindOk] at h
    cases hv3 : readAt gv (y * w + x + 1) with
    | error e => rw [hv3, exceptBindErr] at h; exact absurd h (by simp)
    | ok v3 =>
    rw [hv3, exceptBindOk] at h
    cases hn0 : readAt gn (y * w + x) with
    | error e => rw [hn0, exceptBindErr] at h; exact absurd h (by simp)
    | ok n0 =>
    rw [hn0, exceptBindOk] at h
    cases hn1 : readAt gn ((y + 1) * w + x) with
    | error e => rw [hn1, exceptBindErr] at h; exact absurd h (by simp)
    | ok n1 =>
    rw [hn1, exceptBindOk] at h
    cases hn2 : readAt gn ((y + 1) * w + x + 1) with
    | error e => rw [hn2, exceptBindErr] at h; exact absurd h (by simp)
    | ok n2 =>
    rw [hn2, exceptBindOk] at h
    cases hn3 : readAt gn (y * w + x + 1) with
    | error e => rw [hn3, exceptBindErr] at h; exact absurd h (by simp)
    | ok n3 =>
    rw [hn3, exceptBindOk] at h
    cases hus : readCellUVs gu (y * w) ((y + 1) * w) x with
    | error e => rw [hus, exceptBindErr] at h; exact absurd h (by simp)
    | ok us =>
    rw [hus, exceptBindOk] at h
    have hus4 := readCellUVs_length hus
    injection h with h2
    rw [← h2]
    refine ⟨by simp, by simp, by simp, by simp; omega, ?_⟩
    intro f hf
    simp only [List.mem_append, List.mem_singleton] at hf
    rcases hf with hf | rfl
    · exact Or.inl hf
    · exact Or.inr ⟨rfl, rfl⟩

theorem flFold_shape {gv : List V3} {gn : List Nrm} {gu : Option (List V3)}
    {w ub : Nat} :
    ∀ (cs : List (Nat × Nat)) (st st' : FLState),
      flFold gv gn gu w ub cs st = .ok st' →
      st'.faces.length = st.faces.length + cs.length ∧
      st'.verts.length ≤ st.verts.length + 4 * cs.length ∧
      st'.norms.length ≤ st.norms.length + 4 * cs.length ∧
      st'.uvs.length ≤ st.uvs.length + 4 * cs.length ∧
      (∀ f ∈ st'.faces,
        f ∈ st.faces ∨ (f.mNumIndices = 4 ∧ f.allocatedIndices = 4)) := by
  intro cs
  induction cs with
  | nil =>
      intro st st' h
      simp only [flFold] at h
      injection h with h2
      rw [← h2]
      exact ⟨by simp, by simp, by simp, by simp, fun f hf => Or.inl hf⟩
  | cons c cs ih =>
      intro st st' h
      simp only [flFold] at h
      cases hc : flCell gv gn gu w ub st c with
      | error e => rw [hc, exceptBindErr] at h; exact absurd h (by simp)
      | ok st2 =>
          rw [hc, exceptBindOk] at h
          obtain ⟨f1, v1, n1, u1, m1⟩ := flCell_shape hc
          obtain ⟨f2, v2, n2, u2, m2⟩ := ih st2 st' h
          refine ⟨by simp [f2, f1]; omega, by simp [Nat.mul_succ]; omega,
            by simp [Nat.mul_succ]; omega, by simp [Nat.mul_succ]; omega, ?_⟩
          intro f hf
          rcases m2 f hf with hf2 | h4
          · rcases m1 f hf2 with hf1 | h4
            · exact Or.inl hf1
            · exact Or.inr h4
          · exact Or.inr h4

end HMP

namespace HMP

theorem CreateOutputFaceList_pop {gv : List V3} {gn : List Nrm}
    {gu : Option (List V3)} {w h : Nat}
    (hw : 2 ≤ w) (hh : 2 ≤ h) (hv : w * h ≤ gv.length)
    (hn : w * h ≤ gn.length) (hu : ∀ l, gu = some l → w * h ≤ l.length) :
    CreateOutputFaceList gv gn gu w h = .ok
      ⟨(List.range ((w - 1) * (h - 1))).map popFace,
       (w - 1) * (h - 1) * 4,
       (cellList w h).flatMap (cellVals V3.zero gv w),
       (cellList w h).flatMap (cellVals Nrm.zeroN gn w),
       gu.map fun l => (cellList w h).flatMap (cellVals V3.zero l w)⟩ := by
  have hcells : ∀ c ∈ cellList w h, cellOK gv gn gu w ((w - 1) * (h - 1) * 4) c := by
    intro c hc
    obtain ⟨hx, hy⟩ := mem_cellList hc
    have hlt := cell_lt_wh hx hy
    have hub := wh_le_ub hw hh
    have hyw : c.2 * w ≤ (c.2 + 1) * w := Nat.mul_le_mul_right w (by omega)
    exact ⟨by omega, by omega, by omega, by omega,
      fun l hl => by have := hu l hl; omega⟩
  have hlen : (cellList w h).length = (h - 1) * (w - 1) := cellList_length
  have hcomm : (h - 1) * (w - 1) = (w - 1) * (h - 1) := Nat.mul_comm _ _
  have hpf : popFaceAt 0 = popFace := funext popFaceAt_zero
  have hv4 : ((cellList w h).flatMap (cellVals V3.zero gv w)).length =
      4 * ((h - 1) * (w - 1)) := by
    rw [length_flatMap_const4 (cellVals V3.zero gv w) (fun c => rfl), hlen]
  have hn4 : ((cellList w h).flatMap (cellVals Nrm.zeroN gn w)).length =
      4 * ((h - 1) * (w - 1)) := by
    rw [length_flatMap_const4 (cellVals Nrm.zeroN gn w) (fun c => rfl), hlen]
  have hnv : (w - 1) * (h - 1) * 4 - 4 * ((h - 1) * (w - 1)) = 0 := by omega
  simp only [CreateOutputFaceList]
  rw [flFold_pop (cellList w h) ⟨[], [], [], [], 0⟩ hcells, exceptBindOk]
  simp only [List.nil_append]
  rw [hv4, hn4, hnv]
  cases gu with
  | none =>
      simp [hlen, hcomm, hpf]
  | some l =>
      have hu4 : ((cellList w h).flatMap (cellUVs (some l) w)).length =
          4 * ((h - 1) * (w - 1)) := by
        rw [length_flatMap_const4 (cellUVs (some l) w) (fun c => rfl), hlen]
      simp only [Option.map_some']
      rw [hu4, hnv]
      simp [hlen, hcomm, hpf]
      rfl

theorem CreateOutputFaceList_nil {gv : List V3} {gn : List Nrm}
    {gu : Option (List V3)} {w h : Nat} (hwh : w ≤ 1 ∨ h ≤ 1) :
    CreateOutputFaceList gv gn gu w h = .ok
      ⟨[], 0, [], [], gu.map fun _ => []⟩ := by
  have hnf : (w - 1) * (h - 1) = 0 := by
    rcases hwh with hw | hh
    · rw [show w - 1 = 0 by omega]; simp
    · rw [show h - 1 = 0 by omega]; simp
  simp only [CreateOutputFaceList]
  rw [cellList_nil hwh]
  rw [show flFold gv gn gu w ((w - 1) * (h - 1) * 4) []
      ⟨[], [], [], [], 0⟩ = .ok ⟨[], [], [], [], 0⟩ from rfl, exceptBindOk]
  simp [hnf]

theorem CreateOutputFaceList_shape {gv : List V3} {gn : List Nrm}
    {gu : Option (List V3)} {w h : Nat} {r : FaceListResult}
    (hr : CreateOutputFaceList gv gn gu w h = .ok r) :
    r.faces.length = (w - 1) * (h - 1) ∧
    r.numVertices = (w - 1) * (h - 1) * 4 ∧
    r.verts.length = r.numVertices ∧
    r.norms.length = r.numVertices ∧
    (∀ l, r.uvs = some l → l.length = r.numVertices) ∧
    (∀ f ∈ r.faces, f.mNumIndices = 4 ∧ f.allocatedIndices = 4) ∧
    (r.uvs.isSome ↔ gu.isSome) := by
  simp only [CreateOutputFaceList] at hr
  cases hst : flFold gv gn gu w ((w - 1) * (h - 1) * 4) (cellList w h)
      ⟨[], [], [], [], 0⟩ with
  | error e => rw [hst, exceptBindErr] at hr; exact absurd hr (by simp)
  | ok st =>
      rw [hst, exceptBindOk] at hr
      obtain ⟨hf, hv, hn, hu, hm⟩ := flFold_shape _ _ _ hst
      simp only [List.length_nil, Nat.zero_add] at hf hv hn hu
      have hcl : (cellList w h).length = (h - 1) * (w - 1) := cellList_length
      have hcomm : (h - 1) * (w - 1) = (w - 1) * (h - 1) := Nat.mul_comm _ _
      injection hr with hr
      rw [← hr]
      refine ⟨by simp [hf, hcl, hcomm], rfl, ?_, ?_, ?_, ?_, ?_⟩
      · show (st.verts ++
            List.replicate ((w - 1) * (h - 1) * 4 - st.verts.length)
              V3.zero).length = (w - 1) * (h - 1) * 4
        rw [List.length_append, List.length_replicate]
        omega
      · show (st.norms ++
            List.replicate ((w - 1) * (h - 1) * 4 - st.norms.length)
              Nrm.zeroN).length = (w - 1) * (h - 1) * 4
        rw [List.length_append, List.length_replicate]
        omega
      · intro l hl
        cases gu with
        | none => exact absurd hl (by simp)
        | some l0 =>
            simp only [Option.map_some', Option.some.injEq] at hl
            show l.length = (w - 1) * (h - 1) * 4
            rw [← hl, List.length_append, List.length_replicate]
            omega
      · intro f hfm
        rcases hm f hfm with hf0 | h4
        · exact absurd hf0 (by simp)
        · exact h4
      · cases gu <;> simp

end HMP

namespace HMP

/-! ### Pipeline lemmas, HMP5 -/

theorem GenerateTextureCoords_length {w h n : Nat} :
    (GenerateTextureCoords w h n).length = n := by
  unfold GenerateTextureCoords
  split <;> simp

theorem grid5_ok {b : HmpBuffer} {cur w n : Nat} {tx ty : ℚ}
    (h : cur + 4 * n ≤ b.size) :
    gridMap (decodeVertex5 b cur w tx ty) n =
      .ok ((List.range n).map (vertex5At b cur w tx ty)) :=
  gridMap_ok_of (fun i hi => decodeVertex5_ok (by omega))

theorem grid7_ok {b : HmpBuffer} {cur w n : Nat} {tx ty : ℚ}
    (h : cur + 4 * n ≤ b.size) :
    gridMap (decodeVertex7 b cur w tx ty) n =
      .ok ((List.range n).map (vertex7At b cur w tx ty)) :=
  gridMap_ok_of (fun i hi => decodeVertex7_ok (by omega))

theorem ir5_val_err {plen : Nat → Nat → Nat → Nat} {b : HmpBuffer}
    {e : DecodeErr} (h : ValidateHeader_HMP457 b = .error e) :
    InternReadFile_HMP5 plen b = .error e := by
  unfold InternReadFile_HMP5
  rw [h]
  rfl

theorem ir5_cm_err {plen : Nat → Nat → Nat → Nat} {b : HmpBuffer}
    {e : DecodeErr} (hval : ValidateHeader_HMP457 b = .ok ())
    (hcm : CreateMaterial plen b = .error e) :
    InternReadFile_HMP5 plen b = .error e := by
  unfold InternReadFile_HMP5
  rw [hval, exceptBindOk, hcm]
  rfl

theorem InternReadFile_HMP5_success {plen : Nat → Nat → Nat → Nat}
    {b : HmpBuffer} {m : Material} {u : Bool} {c0 : Nat}
    (hval : ValidateHeader_HMP457 b = .ok ())
    (hcm : CreateMaterial plen b = .ok (m, u, c0))
    (hsz : c0 + 36 + 4 * (heightOf b * widthOf b) ≤ b.size) :
    ∃ s, InternReadFile_HMP5 plen b = .ok s := by
  have hwh := grid_le_numverts hval
  simp only [InternReadFile_HMP5, hval, hcm, exceptBindOk, vertexRecordSizeHMP7]
  rw [SizeCheck_pass hsz, exceptBindOk]
  rw [grid5_ok (show c0 + 36 + 4 * (heightOf b * widthOf b) ≤ b.size from hsz),
    exceptBindOk]
  by_cases hw2 : 2 ≤ widthOf b ∧ 2 ≤ heightOf b
  · rw [CreateOutputFaceList_pop hw2.1 hw2.2
      (by
        simp only [List.length_append, List.length_map, List.length_range,
          List.length_replicate]
        have := Nat.mul_comm (widthOf b) (heightOf b)
        omega)
      (by
        simp only [List.length_append, List.length_map, List.length_range,
          List.length_replicate]
        have := Nat.mul_comm (widthOf b) (heightOf b)
        omega)
      (by
        intro l hl
        split at hl
        · injection hl with h2
          rw [← h2, GenerateTextureCoords_length]
          exact hwh
        · exact absurd hl (by simp)), exceptBindOk]
    exact ⟨_, rfl⟩
  · rw [CreateOutputFaceList_nil (by omega), exceptBindOk]
    exact ⟨_, rfl⟩

theorem InternReadFile_HMP5_trunc {plen : Nat → Nat → Nat → Nat}
    {b : HmpBuffer} {m : Material} {u : Bool} {c0 : Nat}
    (hval : ValidateHeader_HMP457 b = .ok ())
    (hcm : CreateMaterial plen b = .ok (m, u, c0))
    (hsz : b.size < c0 + 36 + 4 * (heightOf b * widthOf b)) :
    InternReadFile_HMP5 plen b = .error .truncatedInput := by
  simp only [InternReadFile_HMP5, hval, hcm, exceptBindOk, vertexRecordSizeHMP7]
  rw [SizeCheck_fail hsz, exceptBindErr]

end HMP

namespace HMP

theorem InternReadFile_HMP5_shape {plen : Nat → Nat → Nat → Nat}
    {b : HmpBuffer} {s : Scene}
    (h : InternReadFile_HMP5 plen b = .ok s) :
    s.meshes.length = 1 ∧ s.materials.length = 1 ∧
    s.rootNode = some ⟨"terrain_root", [0]⟩ ∧ s.terrainFlag = false ∧
    ∀ mh ∈ s.meshes, mh.materialIndex = 0 ∧
      mh.vertices.length = mh.numVertices ∧
      mh.normals.length = mh.numVertices ∧
      (∀ l, mh.uvs = some l → l.length = mh.numVertices) ∧
      mh.numVertices = mh.faces.length * 4 ∧
      (∀ f ∈ mh.faces, f.mNumIndices = 4 ∧ f.allocatedIndices = 4) := by
  simp only [InternReadFile_HMP5] at h
  cases hval : ValidateHeader_HMP457 b with
  | error e => rw [hval, exceptBindErr] at h; exact absurd h (by simp)
  | ok uu =>
  cases uu
  rw [hval, exceptBindOk] at h
  cases hcm : CreateMaterial plen b with
  | error e => rw [hcm, exceptBindErr] at h; exact absurd h (by simp)
  | ok mc =>
  rw [hcm, exceptBindOk] at h
  cases hsc : SizeCheck b
      (mc.2.2 + 36 + vertexRecordSizeHMP7 * (heightOf b * widthOf b)) with
  | error e => rw [hsc, exceptBindErr] at h; exact absurd h (by simp)
  | ok uu2 =>
  cases uu2
  rw [hsc, exceptBindOk] at h
  cases hg : gridMap (decodeVertex5 b (mc.2.2 + 36) (widthOf b)
      b.ftrisize_x.toRat b.ftrisize_y.toRat) (heightOf b * widthOf b) with
  | error e => rw [hg, exceptBindErr] at h; exact absurd h (by simp)
  | ok grid =>
  rw [hg, exceptBindOk] at h
  cases hr : CreateOutputFaceList
      (grid.map Prod.fst ++
        List.replicate (b.numverts - heightOf b * widthOf b) V3.zero)
      (grid.map Prod.snd ++
        List.replicate (b.numverts - heightOf b * widthOf b) .zeroN)
      (if mc.2.1 then
        some (GenerateTextureCoords (widthOf b) (heightOf b) b.numverts)
       else none)
      (widthOf b) (heightOf b) with
  | error e => rw [hr, exceptBindErr] at h; exact absurd h (by simp)
  | ok r =>
  rw [hr, exceptBindOk] at h
  injection h with h2
  rw [← h2]
  obtain ⟨hfl, hnv, hvl, hnl, hul, hfaces, hsome⟩ :=
    CreateOutputFaceList_shape hr
  refine ⟨by simp, by simp, rfl, rfl, ?_⟩
  intro mh hmh
  simp only [List.mem_singleton] at hmh
  subst hmh
  exact ⟨rfl, hvl, hnl, hul, by rw [hnv, hfl], hfaces⟩

theorem ir5_empty {plen : Nat → Nat → Nat → Nat} {b : HmpBuffer}
    (hval : ValidateHeader_HMP457 b = .ok ())
    (hns : b.numskins = 0)
    (hwh : widthOf b ≤ 1 ∨ heightOf b ≤ 1)
    (hsz : 120 + 4 * (heightOf b * widthOf b) ≤ b.size) :
    InternReadFile_HMP5 plen b = .ok
      { meshes := [{ materialIndex := 0, numVertices := 0, vertices := [],
                     normals := [], uvs := none, faces := [] }],
        materials := [.defaultMat],
        rootNode := some ⟨"terrain_root", [0]⟩,
        terrainFlag := false } := by
  have hcm : CreateMaterial plen b = .ok (.defaultMat, false, 84) := by
    unfold CreateMaterial
    rw [if_neg (by simp [hns])]
  simp only [InternReadFile_HMP5, hval, hcm, exceptBindOk, vertexRecordSizeHMP7]
  rw [SizeCheck_pass (by omega), exceptBindOk]
  rw [grid5_ok (show 84 + 36 + 4 * (heightOf b * widthOf b) ≤ b.size by omega),
    exceptBindOk]
  rw [CreateOutputFaceList_nil hwh, exceptBindOk]
  rfl

theorem InternReadFile_HMP5_not_oob (plen : Nat → Nat → Nat → Nat)
    (b : HmpBuffer) : InternReadFile_HMP5 plen b ≠ .error .oobRead := by
  intro hbad
  cases hval : ValidateHeader_HMP457 b with
  | error e =>
      rw [ir5_val_err hval] at hbad
      injection hbad with h2
      rcases validate_err_form hval with h1 | ⟨mm, h1⟩ <;> subst h1 <;>
        simp_all
  | ok uu =>
      cases uu
      have h120 : 120 ≤ b.size := (validate_ok_facts hval).1
      rcases CreateMaterial_cases plen b h120 with ⟨m, u, c0, hcm⟩ | hcm | hcm
      · by_cases hsz : c0 + 36 + 4 * (heightOf b * widthOf b) ≤ b.size
        · obtain ⟨s, hs⟩ := InternReadFile_HMP5_success hval hcm hsz
          rw [hs] at hbad
          exact absurd hbad (by simp)
        · rw [InternReadFile_HMP5_trunc hval hcm (by omega)] at hbad
          simp at hbad
      · rw [ir5_cm_err hval hcm] at hbad; simp at hbad
      · rw [ir5_cm_err hval hcm] at hbad; simp at hbad

end HMP

namespace HMP

/-! ### Pipeline lemmas, HMP7 (mirroring the HMP5 ones) -/

theorem ir7_val_err {plen : Nat → Nat → Nat → Nat} {b : HmpBuffer}
    {e : DecodeErr} (h : ValidateHeader_HMP457 b = .error e) :
    InternReadFile_HMP7 plen b = .error e := by
  unfold InternReadFile_HMP7
  rw [h]
  rfl

theorem ir7_cm_err {plen : Nat → Nat → Nat → Nat} {b : HmpBuffer}
    {e : DecodeErr} (hval : ValidateHeader_HMP457 b = .ok ())
    (hcm : CreateMaterial plen b = .error e) :
    InternReadFile_HMP7 plen b = .error e := by
  unfold InternReadFile_HMP7
  rw [hval, exceptBindOk, hcm]
  rfl

theorem InternReadFile_HMP7_success {plen : Nat → Nat → Nat → Nat}
    {b : HmpBuffer} {m : Material} {u : Bool} {c0 : Nat}
    (hval : ValidateHeader_HMP457 b = .ok ())
    (hcm : CreateMaterial plen b = .ok (m, u, c0))
    (hsz : c0 + 36 + 4 * (heightOf b * widthOf b) ≤ b.size) :
    ∃ s, InternReadFile_HMP7 plen b = .ok s := by
  have hwh := grid_le_numverts hval
  simp only [InternReadFile_HMP7, hval, hcm, exceptBindOk, vertexRecordSizeHMP7]
  rw [SizeCheck_pass hsz, exceptBindOk]
  rw [grid7_ok (show c0 + 36 + 4 * (heightOf b * widthOf b) ≤ b.size from hsz),
    exceptBindOk]
  by_cases hw2 : 2 ≤ widthOf b ∧ 2 ≤ heightOf b
  · rw [CreateOutputFaceList_pop hw2.1 hw2.2
      (by
        simp only [List.length_append, List.length_map, List.length_range,
          List.length_replicate]
        have := Nat.mul_comm (widthOf b) (heightOf b)
        omega)
      (by
        simp only [List.length_append, List.length_map, List.length_range,
          List.length_replicate]
        have := Nat.mul_comm (widthOf b) (heightOf b)
        omega)
      (by
        intro l hl
        split at hl
        · injection hl with h2
          rw [← h2, GenerateTextureCoords_length]
          exact hwh
        · exact absurd hl (by simp)), exceptBindOk]
    exact ⟨_, rfl⟩
  · rw [CreateOutputFaceList_nil (by omega), exceptBindOk]
    exact ⟨_, rfl⟩

theorem InternReadFile_HMP7_trunc {plen : Nat → Nat → Nat → Nat}
    {b : HmpBuffer} {m : Material} {u : Bool} {c0 : Nat}
    (hval : ValidateHeader_HMP457 b = .ok ())
    (hcm : CreateMaterial plen b = .ok (m, u, c0))
    (hsz : b.size < c0 + 36 + 4 * (heightOf b * widthOf b)) :
    InternReadFile_HMP7 plen b = .error .truncatedInput := by
  simp only [InternReadFile_HMP7, hval, hcm, exceptBindOk, vertexRecordSizeHMP7]
  rw [SizeCheck_fail hsz, exceptBindErr]

theorem InternReadFile_HMP7_shape {plen : Nat → Nat → Nat → Nat}
    {b : HmpBuffer} {s : Scene}
    (h : InternReadFile_HMP7 plen b = .ok s) :
    s.meshes.length = 1 ∧ s.materials.length = 1 ∧
    s.rootNode = some ⟨"terrain_root", [0]⟩ ∧ s.terrainFlag = false ∧
    ∀ mh ∈ s.meshes, mh.materialIndex = 0 ∧
      mh.vertices.length = mh.numVertices ∧
      mh.normals.length = mh.numVertices ∧
      (∀ l, mh.uvs = some l → l.length = mh.numVertices) ∧
      mh.numVertices = mh.faces.length * 4 ∧
      (∀ f ∈ mh.faces, f.mNumIndices = 4 ∧ f.allocatedIndices = 4) := by
  simp only [InternReadFile_HMP7] at h
  cases hval : ValidateHeader_HMP457 b with
  | error e => rw [hval, exceptBindErr] at h; exact absurd h (by simp)
  | ok uu =>
  cases uu
  rw [hval, exceptBindOk] at h
  cases hcm : CreateMaterial plen b with
  | error e => rw [hcm, exceptBindErr] at h; exact absurd h (by simp)
  | ok mc =>
  rw [hcm, exceptBindOk] at h
  cases hsc : SizeCheck b
      (mc.2.2 + 36 + vertexRecordSizeHMP7 * (heightOf b * widthOf b)) with
  | error e => rw [hsc, exceptBindErr] at h; exact absurd h (by simp)
  | ok uu2 =>
  cases uu2
  rw [hsc, exceptBindOk] at h
  cases hg : gridMap (decodeVertex7 b (mc.2.2 + 36) (widthOf b)
      b.ftrisize_x.toRat b.ftrisize_y.toRat) (heightOf b * widthOf b) with
  | error e => rw [hg, exceptBindErr] at h; exact absurd h (by simp)
  | ok grid =>
  rw [hg, exceptBindOk] at h
  cases hr : CreateOutputFaceList
      (grid.map Prod.fst ++
        List.replicate (b.numverts - heightOf b * widthOf b) V3.zero)
      (grid.map Prod.snd ++
        List.replicate (b.numverts - heightOf b * widthOf b) .zeroN)
      (if mc.2.1 then
        some (GenerateTextureCoords (widthOf b) (heightOf b) b.numverts)
       else none)
      (widthOf b) (heightOf b) with
  | error e => rw [hr, exceptBindErr] at h; exact absurd h (by simp)
  | ok r =>
  rw [hr, exceptBindOk] at h
  injection h with h2
  rw [← h2]
  obtain ⟨hfl, hnv, hvl, hnl, hul, hfaces, hsome⟩ :=
    CreateOutputFaceList_shape hr
  refine ⟨by simp, by simp, rfl, rfl, ?_⟩
  intro mh hmh
  simp only [List.mem_singleton] at hmh
  subst hmh
  exact ⟨rfl, hvl, hnl, hul, by rw [hnv, hfl], hfaces⟩

theorem ir7_empty {plen : Nat → Nat → Nat → Nat} {b : HmpBuffer}
    (hval : ValidateHeader_HMP457 b = .ok ())
    (hns : b.numskins = 0)
    (hwh : widthOf b ≤ 1 ∨ heightOf b ≤ 1)
    (hsz : 120 + 4 * (heightOf b * widthOf b) ≤ b.size) :
    InternReadFile_HMP7 plen b = .ok
      { meshes := [{ materialIndex := 0, numVertices := 0, vertices := [],
                     normals := [], uvs := none, faces := [] }],
        materials := [.defaultMat],
        rootNode := some ⟨"terrain_root", [0]⟩,
        terrainFlag := false } := by
  have hcm : CreateMaterial plen b = .ok (.defaultMat, false, 84) := by
    unfold CreateMaterial
    rw [if_neg (by simp [hns])]
  simp only [InternReadFile_HMP7, hval, hcm, exceptBindOk, vertexRecordSizeHMP7]
  rw [SizeCheck_pass (by omega), exceptBindOk]
  rw [grid7_ok (show 84 + 36 + 4 * (heightOf b * widthOf b) ≤ b.size by omega),
    exceptBindOk]
  rw [CreateOutputFaceList_nil hwh, exceptBindOk]
  rfl

theorem InternReadFile_HMP7_not_oob (plen : Nat → Nat → Nat → Nat)
    (b : HmpBuffer) : InternReadFile_HMP7 plen b ≠ .error .oobRead := by
  intro hbad
  cases hval : ValidateHeader_HMP457 b with
  | error e =>
      rw [ir7_val_err hval] at hbad
      injection hbad with h2
      rcases validate_err_form hval with h1 | ⟨mm, h1⟩ <;> subst h1 <;>
        simp_all
  | ok uu =>
      cases uu
      have h120 : 120 ≤ b.size := (validate_ok_facts hval).1
      rcases CreateMaterial_cases plen b h120 with ⟨m, u, c0, hcm⟩ | hcm | hcm
      · by_cases hsz : c0 + 36 + 4 * (heightOf b * widthOf b) ≤ b.size
        · obtain ⟨s, hs⟩ := InternReadFile_HMP7_success hval hcm hsz
          rw [hs] at hbad
          exact absurd hbad (by simp)
        · rw [InternReadFile_HMP7_trunc hval hcm (by omega)] at hbad
          simp at hbad
      · rw [ir7_cm_err hval hcm] at hbad; simp at hbad
      · rw [ir7_cm_err hval hcm] at hbad; simp at hbad


end HMP

namespace HMP

/-! ### Top level dispatch lemmas -/

theorem InternReadFile_small {plen : Nat → Nat → Nat → Nat} {b : HmpBuffer}
    (h : b.size < 50) : InternReadFile plen b = .error .tooSmall := by
  unfold InternReadFile
  rw [if_pos h]

theorem InternReadFile_dispatch {plen : Nat → Nat → Nat → Nat}
    {b : HmpBuffer} (h : ¬b.size < 50) :
    InternReadFile plen b =
      (if u32At b 0 = MAGIC_HMP4_A ∨ u32At b 0 = MAGIC_HMP4_B then
        .error .unsupportedRevision
      else if u32At b 0 = MAGIC_HMP5_A ∨ u32At b 0 = MAGIC_HMP5_B then
        (InternReadFile_HMP5 plen b) >>=
          (fun s => .ok { s with terrainFlag := true })
      else if u32At b 0 = MAGIC_HMP7_A ∨ u32At b 0 = MAGIC_HMP7_B then
        (InternReadFile_HMP7 plen b) >>=
          (fun s => .ok { s with terrainFlag := true })
      else .error (.unknownSubformat (u32At b 0))) := by
  unfold InternReadFile
  rw [if_neg h, readU32_eq_ok (by omega), exceptBindOk]

theorem InternReadFile_not_oob (plen : Nat → Nat → Nat → Nat)
    (b : HmpBuffer) : InternReadFile plen b ≠ .error .oobRead := by
  intro hbad
  by_cases h50 : b.size < 50
  · rw [InternReadFile_small h50] at hbad; simp at hbad
  · rw [InternReadFile_dispatch h50] at hbad
    split_ifs at hbad
    · simp at hbad
    · cases hr : InternReadFile_HMP5 plen b with
      | ok s =>
          rw [hr, exceptBindOk] at hbad
          simp at hbad
      | error e =>
          rw [hr, exceptBindErr] at hbad
          injection hbad with h2
          rw [h2] at hr
          exact InternReadFile_HMP5_not_oob plen b hr
    · cases hr : InternReadFile_HMP7 plen b with
      | ok s =>
          rw [hr, exceptBindOk] at hbad
          simp at hbad
      | error e =>
          rw [hr, exceptBindErr] at hbad
          injection hbad with h2
          rw [h2] at hr
          exact InternReadFile_HMP7_not_oob plen b hr
    · simp at hbad

theorem InternReadFile_shape {plen : Nat → Nat → Nat → Nat}
    {b : HmpBuffer} {s : Scene} (h : InternReadFile plen b = .ok s) :
    s.terrainFlag = true ∧ s.meshes.length = 1 ∧ s.materials.length = 1 ∧
    s.rootNode = some ⟨"terrain_root", [0]⟩ ∧
    ∀ mh ∈ s.meshes, mh.materialIndex = 0 ∧
      mh.vertices.length = mh.numVertices ∧
      mh.normals.length = mh.numVertices ∧
      (∀ l, mh.uvs = some l → l.length = mh.numVertices) ∧
      mh.numVertices = mh.faces.length * 4 ∧
      (∀ f ∈ mh.faces, f.mNumIndices = 4 ∧ f.allocatedIndices = 4) := by
  by_cases h50 : b.size < 50
  · rw [InternReadFile_small h50] at h; exact absurd h (by simp)
  · rw [InternReadFile_dispatch h50] at h
    by_cases h4 : u32At b 0 = MAGIC_HMP4_A ∨ u32At b 0 = MAGIC_HMP4_B
    · rw [if_pos h4] at h; exact absurd h (by simp)
    rw [if_neg h4] at h
    by_cases h5 : u32At b 0 = MAGIC_HMP5_A ∨ u32At b 0 = MAGIC_HMP5_B
    · rw [if_pos h5] at h
      cases hr : InternReadFile_HMP5 plen b with
      | error e => rw [hr, exceptBindErr] at h; exact absurd h (by simp)
      | ok s0 =>
          rw [hr, exceptBindOk] at h
          injection h with h2
          rw [← h2]
          obtain ⟨hm1, hm2, hroot, hflag, hmesh⟩ := InternReadFile_HMP5_shape hr
          exact ⟨rfl, hm1, hm2, hroot, hmesh⟩
    rw [if_neg h5] at h
    by_cases h7 : u32At b 0 = MAGIC_HMP7_A ∨ u32At b 0 = MAGIC_HMP7_B
    · rw [if_pos h7] at h
      cases hr : InternReadFile_HMP7 plen b with
      | error e => rw [hr, exceptBindErr] at h; exact absurd h (by simp)
      | ok s0 =>
          rw [hr, exceptBindOk] at h
          injection h with h2
          rw [← h2]
          obtain ⟨hm1, hm2, hroot, hflag, hmesh⟩ := InternReadFile_HMP7_shape hr
          exact ⟨rfl, hm1, hm2, hroot, hmesh⟩
    rw [if_neg h7] at h
    exact absurd h (by simp)

end HMP

namespace HMP

/-! ### Helper lemmas for the claim theorems -/

theorem gridMap_ok_get {α : Type} {f : Nat → Except DecodeErr α} :
    ∀ {n : Nat} {l : List α}, gridMap f n = .ok l → ∀ {i : Nat}, i < n →
      ∃ v, f i = .ok v ∧ l.get? i = some v := by
  intro n
  induction n with
  | zero => intro l h i hi; omega
  | succ k ih =>
      intro l h i hi
      unfold gridMap at h
      cases hg : gridMap f k with
      | error e => rw [hg, exceptBindErr] at h; exact absurd h (by simp)
      | ok xs =>
          rw [hg, exceptBindOk] at h
          cases hf : f k with
          | error e => rw [hf, exceptBindErr] at h; exact absurd h (by simp)
          | ok x =>
              rw [hf, exceptBindOk] at h
              injection h with h2
              have hxs : xs.length = k := gridMap_ok_length hg
              rcases Nat.lt_succ_iff_lt_or_eq.mp hi with hik | rfl
              · obtain ⟨v, hv, hget⟩ := ih hg hik
                refine ⟨v, hv, ?_⟩
                rw [← h2, List.get?_append (by omega)]
                exact hget
              · refine ⟨x, hf, ?_⟩
                rw [← h2, ← hxs, List.get?_concat_length]

theorem decodeVertex5_inv {b : HmpBuffer} {cur w : Nat} {tx ty : ℚ}
    {i : Nat} {v : V3 × Nrm} (h : decodeVertex5 b cur w tx ty i = .ok v) :
    v = vertex5At b cur w tx ty i := by
  unfold decodeVertex5 at h
  cases hz : readU16 b (cur + 4 * i) with
  | error e => rw [hz, exceptBindErr] at h; exact absurd h (by simp)
  | ok z =>
      rw [hz, exceptBindOk] at h
      cases hn : readByte b (cur + 4 * i + 2) with
      | error e => rw [hn, exceptBindErr] at h; exact absurd h (by simp)
      | ok ni =>
          rw [hn, exceptBindOk] at h
          injection h with h2
          unfold readU16 at hz
          unfold readByte at hn
          split at hz
          · split at hn
            · injection hz with hz2
              injection hn with hn2
              rw [← h2, ← hz2, ← hn2]
              rfl
            · exact absurd hn (by simp)
          · exact absurd hz (by simp)

theorem decodeVertex7_inv {b : HmpBuffer} {cur w : Nat} {tx ty : ℚ}
    {i : Nat} {v : V3 × Nrm} (h : decodeVertex7 b cur w tx ty i = .ok v) :
    v = vertex7At b cur w tx ty i := by
  unfold decodeVertex7 at h
  cases hz : readU16 b (cur + 4 * i) with
  | error e => rw [hz, exceptBindErr] at h; exact absurd h (by simp)
  | ok z =>
      rw [hz, exceptBindOk] at h
      cases hn : readByte b (cur + 4 * i + 2) with
      | error e => rw [hn, exceptBindErr] at h; exact absurd h (by simp)
      | ok nx =>
          rw [hn, exceptBindOk] at h
          cases hn2 : readByte b (cur + 4 * i + 3) with
          | error e => rw [hn2, exceptBindErr] at h; exact absurd h (by simp)
          | ok ny =>
              rw [hn2, exceptBindOk] at h
              injection h with h2
              unfold readU16 at hz
              unfold readByte at hn hn2
              split at hz
              · split at hn
                · split at hn2
                  · injection hz with hza
                    injection hn with hna
                    injection hn2 with hnb
                    rw [← h2, ← hza, ← hna, ← hnb]
                    rfl
                  · exact absurd hn2 (by simp)
                · exact absurd hn (by simp)
              · exact absurd hz (by simp)

theorem grid_index_mod {x y w : Nat} (hx : x < w) : (y * w + x) % w = x := by
  rw [Nat.add_comm, Nat.add_mul_mod_self_right, Nat.mod_eq_of_lt hx]

theorem grid_index_div {x y w : Nat} (hx : x < w) : (y * w + x) / w = y := by
  rw [Nat.add_comm, Nat.add_mul_div_right _ _ (by omega : 0 < w),
    Nat.div_eq_of_lt hx]
  omega

theorem validate_err_invalid {b : HmpBuffer} {e : DecodeErr}
    (h120 : 120 ≤ b.size) (h : ValidateHeader_HMP457 b = .error e) :
    ∃ m, e = .invalidHeader m := by
  unfold ValidateHeader_HMP457 at h
  rw [if_neg (by omega)] at h
  split_ifs at h <;>
    first
      | (injection h with h2; exact ⟨_, h2.symm⟩)
      | exact absurd h (by simp)

end HMP

namespace HMP

/-! ### Claim theorems -/

/-- C1: for every input buffer, decode never silently reads past the end
of the buffer: every run returns a scene or one of the program's own
typed errors, and the instrumented out-of-bounds outcome `oobRead` (the
observable of an unchecked overrunning read) is unreachable.  Bounds
violations during vertex, skin or skip parsing instead surface as
`truncatedInput`; the first skin chunk's fixed-offset reads (type tag,
8-byte retry, width, height, all below byte 108) are covered by the
120-byte minimum enforced before `ReadFirstSkin` runs. -/
theorem claim_C1_no_silent_truncation :
    ∀ (plen : Nat → Nat → Nat → Nat) (b : HmpBuffer),
      (∃ s, InternReadFile plen b = .ok s) ∨
      (∃ e, InternReadFile plen b = .error e ∧
        (e = .tooSmall ∨ e = .headerTooSmall ∨ (∃ m, e = .invalidHeader m) ∨
         e = .truncatedInput ∨ e = .unreadableSkinChunk ∨
         (∃ mg, e = .unknownSubformat mg) ∨ e = .unsupportedRevision)) := by
  intro plen b
  cases hr : InternReadFile plen b with
  | ok s => exact Or.inl ⟨s, rfl⟩
  | error e =>
      refine Or.inr ⟨e, rfl, ?_⟩
      cases e with
      | tooSmall => tauto
      | headerTooSmall => tauto
      | invalidHeader m => exact Or.inr (Or.inr (Or.inl ⟨m, rfl⟩))
      | truncatedInput => tauto
      | unreadableSkinChunk => tauto
      | unknownSubformat mg =>
          exact Or.inr (Or.inr (Or.inr (Or.inr (Or.inr (Or.inl ⟨mg, rfl⟩)))))
      | unsupportedRevision => tauto
      | oobRead => exact absurd hr (InternReadFile_not_oob plen b)

/-- C2: decode is all-or-nothing: a successful run returns a scene with
the terrain flag set, exactly one mesh and one material, and a root node
referencing mesh 0, with all mesh buffers fully populated and
consistent; a failed run returns a typed error only (the `Except` result
carries no scene data on the error side). -/
theorem claim_C2_all_or_nothing :
    ∀ (plen : Nat → Nat → Nat → Nat) (b : HmpBuffer) (s : Scene),
      InternReadFile plen b = .ok s →
      s.terrainFlag = true ∧ s.meshes.length = 1 ∧ s.materials.length = 1 ∧
      s.rootNode = some ⟨"terrain_root", [0]⟩ ∧
      ∀ mh ∈ s.meshes, mh.materialIndex = 0 ∧
        mh.vertices.length = mh.numVertices ∧
        mh.normals.length = mh.numVertices ∧
        (∀ l, mh.uvs = some l → l.length = mh.numVertices) ∧
        mh.numVertices = mh.faces.length * 4 ∧
        (∀ f ∈ mh.faces, f.mNumIndices = 4 ∧ f.allocatedIndices = 4) :=
  fun _ _ _ h => InternReadFile_shape h

end HMP

namespace HMP

/-! ### Concrete evaluation lemmas for the witnesses (the rational
arithmetic in the header derivation is not kernel-computable through
`Nat.gcd`, so these are proved by rewriting rather than `decide`) -/

theorem width_bOK : widthOf bOK = 1 := by
  rw [widthOf]
  norm_num [bOK, F.toRat]

theorem height_bOK : heightOf bOK = 1 := by
  rw [heightOf]
  norm_num [bOK, F.divF, F.toRat]

theorem validate_bOK : ValidateHeader_HMP457 bOK = .ok () := by
  rw [ValidateHeader_HMP457]
  norm_num [bOK, F.isFinite, F.isZero, F.ltF, F.divF]

theorem width_bTrunc : widthOf bTrunc = 1 := by
  rw [widthOf]
  norm_num [bTrunc, bOK, F.toRat]

theorem height_bTrunc : heightOf bTrunc = 1 := by
  rw [heightOf]
  norm_num [bTrunc, bOK, F.divF, F.toRat]

theorem validate_bTrunc : ValidateHeader_HMP457 bTrunc = .ok () := by
  rw [ValidateHeader_HMP457]
  norm_num [bTrunc, bOK, F.isFinite, F.isZero, F.ltF, F.divF]

theorem intern_bOK : InternReadFile plen0 bOK = .ok sceneOK := by
  have h5 : InternReadFile_HMP5 plen0 bOK = .ok
      { meshes := [{ materialIndex := 0, numVertices := 0, vertices := [],
                     normals := [], uvs := none, faces := [] }],
        materials := [.defaultMat],
        rootNode := some ⟨"terrain_root", [0]⟩,
        terrainFlag := false } :=
    ir5_empty validate_bOK rfl (Or.inl (by rw [width_bOK]))
      (by rw [width_bOK, height_bOK]; decide)
  rw [InternReadFile_dispatch (by decide)]
  rw [if_neg (by decide), if_pos (Or.inl (by decide)), h5, exceptBindOk]
  rfl

theorem claim_C2_all_or_nothing_witness :
    InternReadFile plen0 bOK = .ok sceneOK ∧
    (sceneOK.terrainFlag = true ∧ sceneOK.meshes.length = 1 ∧
      sceneOK.materials.length = 1 ∧
      sceneOK.rootNode = some ⟨"terrain_root", [0]⟩ ∧
      ∀ mh ∈ sceneOK.meshes, mh.materialIndex = 0 ∧
        mh.vertices.length = mh.numVertices ∧
        mh.normals.length = mh.numVertices ∧
        (∀ l, mh.uvs = some l → l.length = mh.numVertices) ∧
        mh.numVertices = mh.faces.length * 4 ∧
        (∀ f ∈ mh.faces, f.mNumIndices = 4 ∧ f.allocatedIndices = 4)) :=
  ⟨intern_bOK, claim_C2_all_or_nothing plen0 bOK sceneOK intern_bOK⟩

end HMP

namespace HMP

/-- C4: for each supported revision the decoder size-checks the entire
projected vertex-array extent, height * width * recordSize with that
revision's own 4-byte record size, before reading any vertex: an extent
overrunning the buffer fails with exactly `truncatedInput`, and an
extent that fits lets the decode complete.  (In the source the HMP5
branch spells the size as `sizeof(Vertex_HMP7)`; the two record sizes
are both 4 bytes, so the checked extent is the same.) -/
theorem claim_C4_vertex_extent_check :
    ∀ (plen : Nat → Nat → Nat → Nat) (b : HmpBuffer) (m : Material)
      (u : Bool) (c0 : Nat),
      ValidateHeader_HMP457 b = .ok () →
      CreateMaterial plen b = .ok (m, u, c0) →
      ((b.size < c0 + 36 + heightOf b * widthOf b * vertexRecordSizeHMP5 →
          InternReadFile_HMP5 plen b = .error .truncatedInput) ∧
       (c0 + 36 + heightOf b * widthOf b * vertexRecordSizeHMP5 ≤ b.size →
          ∃ s, InternReadFile_HMP5 plen b = .ok s) ∧
       (b.size < c0 + 36 + heightOf b * widthOf b * vertexRecordSizeHMP7 →
          InternReadFile_HMP7 plen b = .error .truncatedInput) ∧
       (c0 + 36 + heightOf b * widthOf b * vertexRecordSizeHMP7 ≤ b.size →
          ∃ s, InternReadFile_HMP7 plen b = .ok s)) := by
  intro plen b m u c0 hval hcm
  have e5 : heightOf b * widthOf b * vertexRecordSizeHMP5 =
      4 * (heightOf b * widthOf b) := by
    simp [vertexRecordSizeHMP5, Nat.mul_comm]
  have e7 : heightOf b * widthOf b * vertexRecordSizeHMP7 =
      4 * (heightOf b * widthOf b) := by
    simp [vertexRecordSizeHMP7, Nat.mul_comm]
  exact ⟨fun h => InternReadFile_HMP5_trunc hval hcm (by rw [e5] at h; exact h),
    fun h => InternReadFile_HMP5_success hval hcm (by rw [e5] at h; exact h),
    fun h => InternReadFile_HMP7_trunc hval hcm (by rw [e7] at h; exact h),
    fun h => InternReadFile_HMP7_success hval hcm (by rw [e7] at h; exact h)⟩

theorem claim_C4_vertex_extent_check_witness :
    (InternReadFile_HMP5 plen0 bTrunc = .error .truncatedInput ∧
      InternReadFile_HMP7 plen0 bTrunc = .error .truncatedInput) ∧
    (∃ s, InternReadFile_HMP5 plen0 bOK = .ok s) := by
  refine ⟨⟨?_, ?_⟩, ?_⟩
  · exact (claim_C4_vertex_extent_check plen0 bTrunc .defaultMat false 84
      validate_bTrunc (by decide)).1
      (by rw [height_bTrunc, width_bTrunc]; decide)
  · exact (claim_C4_vertex_extent_check plen0 bTrunc .defaultMat false 84
      validate_bTrunc (by decide)).2.2.1
      (by rw [height_bTrunc, width_bTrunc]; decide)
  · exact (claim_C4_vertex_extent_check plen0 bOK .defaultMat false 84
      validate_bOK (by decide)).2.1
      (by rw [height_bOK, width_bOK]; decide)

/-- C5: on any buffer of at least 120 bytes, header validation is
exactly the claim's cascade: the five conditions in this order -
triangle spacings finite, spacings nonzero, `fnumverts_x` finite,
`fnumverts_x ≥ 1` and `numverts / fnumverts_x ≥ 1`, frame count at least
1 - each failing with its own distinct, nonempty `InvalidHeader`
message, and the only errors such a buffer can produce are
`InvalidHeader` ones. -/
theorem claim_C5_header_validation_cascade :
    (∀ b : HmpBuffer, 120 ≤ b.size →
      ValidateHeader_HMP457 b = specHeaderCascade b) ∧
    (∀ (b : HmpBuffer) (e : DecodeErr), 120 ≤ b.size →
      ValidateHeader_HMP457 b = .error e → ∃ m, e = .invalidHeader m) ∧
    List.Pairwise (· ≠ ·)
      [msgTriNotFinite, msgTriZero, msgNumXNotFinite, msgNumZero,
        msgNoFrames] ∧
    (∀ m ∈ [msgTriNotFinite, msgTriZero, msgNumXNotFinite, msgNumZero,
      msgNoFrames], m ≠ "") := by
  refine ⟨?_, fun b e h120 herr => validate_err_invalid h120 herr,
    by decide, by decide⟩
  intro b hb
  simp only [ValidateHeader_HMP457, specHeaderCascade,
    if_neg (show ¬b.size < 120 by omega)]
  cases hA1 : b.ftrisize_x.isFinite <;>
  cases hA2 : b.ftrisize_y.isFinite <;>
  cases hZx : b.ftrisize_x.isZero <;>
  cases hZy : b.ftrisize_y.isZero <;>
  cases hF : b.fnumverts_x.isFinite <;>
  cases hL1 : F.ltF b.fnumverts_x (.fin 1) <;>
  cases hL2 : F.ltF (F.divF (.fin (b.numverts : ℚ)) b.fnumverts_x) (.fin 1) <;>
  by_cases hn : b.numframes = 0 <;>
  simp [hA1, hA2, hZx, hZy, hF, hL1, hL2, hn, Nat.one_le_iff_ne_zero]

theorem claim_C5_header_validation_cascade_witness :
    (ValidateHeader_HMP457 bOK = specHeaderCascade bOK) ∧
    msgTriZero ≠ "" :=
  ⟨claim_C5_header_validation_cascade.1 bOK (by decide),
   claim_C5_header_validation_cascade.2.2.2 msgTriZero (by decide)⟩

/-- C10: a header that validates with width 1 or height 1 (permitted by
the loose grid checks) is not an error: decode succeeds and the face
assembler discards the decoded vertex grid, leaving a mesh with no faces
and no vertices. -/
theorem claim_C10_degenerate_grid_ok :
    ∀ (plen : Nat → Nat → Nat → Nat) (b : HmpBuffer),
      ValidateHeader_HMP457 b = .ok () →
      b.numskins = 0 →
      (widthOf b = 1 ∨ heightOf b = 1) →
      120 + 4 * (heightOf b * widthOf b) ≤ b.size →
      (u32At b 0 = MAGIC_HMP5_A ∨ u32At b 0 = MAGIC_HMP5_B ∨
       u32At b 0 = MAGIC_HMP7_A ∨ u32At b 0 = MAGIC_HMP7_B) →
      InternReadFile plen b = .ok
        { meshes := [{ materialIndex := 0, numVertices := 0, vertices := [],
                       normals := [], uvs := none, faces := [] }],
          materials := [.defaultMat],
          rootNode := some ⟨"terrain_root", [0]⟩,
          terrainFlag := true } := by
  intro plen b hval hns hwh hsz hmagic
  have h50 : ¬b.size < 50 := by
    have := (validate_ok_facts hval).1
    omega
  have hwh' : widthOf b ≤ 1 ∨ heightOf b ≤ 1 := by
    rcases hwh with h | h
    · exact Or.inl (by omega)
    · exact Or.inr (by omega)
  rw [InternReadFile_dispatch h50]
  rw [if_neg (show ¬(u32At b 0 = MAGIC_HMP4_A ∨ u32At b 0 = MAGIC_HMP4_B) by
    rcases hmagic with h | h | h | h <;> rw [h] <;> decide)]
  rcases hmagic with h | h | h | h
  · rw [if_pos (Or.inl h), ir5_empty hval hns hwh' hsz, exceptBindOk]
  · rw [if_pos (Or.inr h), ir5_empty hval hns hwh' hsz, exceptBindOk]
  · rw [if_neg (show ¬(u32At b 0 = MAGIC_HMP5_A ∨ u32At b 0 = MAGIC_HMP5_B) by
      rw [h]; decide), if_pos (Or.inl h),
      ir7_empty hval hns hwh' hsz, exceptBindOk]
  · rw [if_neg (show ¬(u32At b 0 = MAGIC_HMP5_A ∨ u32At b 0 = MAGIC_HMP5_B) by
      rw [h]; decide), if_pos (Or.inr h),
      ir7_empty hval hns hwh' hsz, exceptBindOk]

theorem claim_C10_degenerate_grid_ok_witness :
    InternReadFile plen0 bOK = .ok
      { meshes := [{ materialIndex := 0, numVertices := 0, vertices := [],
                     normals := [], uvs := none, faces := [] }],
        materials := [.defaultMat],
        rootNode := some ⟨"terrain_root", [0]⟩,
        terrainFlag := true } :=
  claim_C10_degenerate_grid_ok plen0 bOK validate_bOK rfl (Or.inl width_bOK)
    (by rw [width_bOK, height_bOK]; decide) (Or.inl (by decide))

end HMP

namespace HMP

/-- C3 counterexample: a 3 by 2 face grid over a vertex array of only 3
entries has a cell (x = 1, y = 0) whose bottom-row/right-edge index 5
exceeds the allocated vertex count 3, yet `CreateOutputFaceList` does
not leave that face unpopulated: its guard compares against the
duplicated-buffer bound 8, does not fire, and the loop reads the vertex
array out of bounds. -/
theorem claim_C3_counterexample :
    CreateOutputFaceList gv3 gn3 none 3 2 = .error .oobRead ∧
    1 < 3 - 1 ∧ 0 < 2 - 1 ∧ gv3.length < (0 + 1) * 3 + 1 + 1 :=
  ⟨by decide, by decide, by decide, by decide⟩

/-- C3 (amended): the defensive guard in `CreateOutputFaceList` compares
cell indices against the duplicated output capacity
`(width-1) * (height-1) * 4`, not against the grid's allocated vertex
count; for any width, height ≥ 2 that bound strictly exceeds every cell
index, so the guard never fires and no face is ever left unpopulated.
Out-of-bounds reads are instead prevented by the grid arrays covering
`width * height` entries, which the header derivation guarantees:
`width * height ≤ numverts` in exact arithmetic. -/
theorem claim_C3_degenerate_face_policy :
    (∀ w h x y : Nat, x < w - 1 → y < h - 1 →
      y * w + x + 1 < (w - 1) * (h - 1) * 4 ∧
      (y + 1) * w + x + 1 < (w - 1) * (h - 1) * 4) ∧
    (∀ (gv : List V3) (gn : List Nrm) (gu : Option (List V3)) (w h : Nat),
      2 ≤ w → 2 ≤ h → w * h ≤ gv.length → w * h ≤ gn.length →
      (∀ l, gu = some l → w * h ≤ l.length) →
      ∃ r, CreateOutputFaceList gv gn gu w h = .ok r ∧
        ∀ f ∈ r.faces, f.mNumIndices = 4 ∧ f.allocatedIndices = 4 ∧
          f.vals.isSome = true) ∧
    (∀ b : HmpBuffer, ValidateHeader_HMP457 b = .ok () →
      widthOf b * heightOf b ≤ b.numverts) := by
  refine ⟨?_, ?_, fun b hval => grid_le_numverts hval⟩
  · intro w h x y hx hy
    have hw2 : 2 ≤ w := by omega
    have hh2 : 2 ≤ h := by omega
    have h1 := cell_lt_wh hx hy
    have h2 := wh_le_ub hw2 hh2
    have hyw : y * w ≤ (y + 1) * w := Nat.mul_le_mul_right w (by omega)
    exact ⟨by omega, by omega⟩
  · intro gv gn gu w h hw hh hv hn hu
    refine ⟨_, CreateOutputFaceList_pop hw hh hv hn hu, ?_⟩
    intro f hf
    simp only [List.mem_map, List.mem_range] at hf
    obtain ⟨k, hk, rfl⟩ := hf
    exact ⟨rfl, rfl, rfl⟩

theorem claim_C3_degenerate_face_policy_witness :
    (0 * 3 + 1 + 1 < (3 - 1) * (2 - 1) * 4 ∧
      (0 + 1) * 3 + 1 + 1 < (3 - 1) * (2 - 1) * 4) ∧
    (∃ r, CreateOutputFaceList gv6 gn6 none 3 2 = .ok r ∧
      ∀ f ∈ r.faces, f.mNumIndices = 4 ∧ f.allocatedIndices = 4 ∧
        f.vals.isSome = true) ∧
    widthOf bOK * heightOf bOK ≤ bOK.numverts :=
  ⟨claim_C3_degenerate_face_policy.1 3 2 1 0 (by decide) (by decide),
   claim_C3_degenerate_face_policy.2.1 gv6 gn6 none 3 2 (by decide)
     (by decide) (by decide) (by decide)
     (fun l hl => absurd hl (by simp)),
   claim_C3_degenerate_face_policy.2.2 bOK validate_bOK⟩

/-- C9: for any grid with width, height ≥ 2 whose vertex and normal
arrays cover `width * height` entries, the assembler produces exactly
`(width-1) * (height-1)` quad faces; the duplicated vertex and normal
buffers have exactly `4 * faceCount` entries, built by copying the four
corners of every cell; and face `k` owns the four freshly assigned
indices `4k .. 4k+3`, so no index is shared between faces. -/
theorem claim_C9_face_count_invariant :
    ∀ (gv : List V3) (gn : List Nrm) (w h : Nat),
      2 ≤ w → 2 ≤ h → w * h ≤ gv.length → w * h ≤ gn.length →
      ∃ r, CreateOutputFaceList gv gn none w h = .ok r ∧
        r.faces.length = (w - 1) * (h - 1) ∧
        r.numVertices = (w - 1) * (h - 1) * 4 ∧
        r.verts.length = 4 * ((w - 1) * (h - 1)) ∧
        r.norms.length = 4 * ((w - 1) * (h - 1)) ∧
        r.verts = (cellList w h).flatMap (cellVals V3.zero gv w) ∧
        r.norms = (cellList w h).flatMap (cellVals Nrm.zeroN gn w) ∧
        ∀ k < (w - 1) * (h - 1), r.faces.get? k =
          some ⟨4, 4, some [4 * k, 4 * k + 1, 4 * k + 2, 4 * k + 3]⟩ := by
  intro gv gn w h hw hh hv hn
  refine ⟨_, CreateOutputFaceList_pop hw hh hv hn
    (fun l hl => absurd hl (by simp)), by simp, rfl, ?_, ?_, rfl, rfl, ?_⟩
  · show ((cellList w h).flatMap (cellVals V3.zero gv w)).length =
      4 * ((w - 1) * (h - 1))
    rw [length_flatMap_const4 (cellVals V3.zero gv w) (fun c => rfl),
      cellList_length, Nat.mul_comm (h - 1) (w - 1)]
  · show ((cellList w h).flatMap (cellVals Nrm.zeroN gn w)).length =
      4 * ((w - 1) * (h - 1))
    rw [length_flatMap_const4 (cellVals Nrm.zeroN gn w) (fun c => rfl),
      cellList_length, Nat.mul_comm (h - 1) (w - 1)]
  · intro k hk
    show ((List.range ((w - 1) * (h - 1))).map popFace).get? k = _
    rw [List.get?_map, List.get?_range hk]
    rfl

theorem claim_C9_face_count_invariant_witness :
    ∃ r, CreateOutputFaceList gv4 gn4 none 2 2 = .ok r ∧
      r.faces.length = (2 - 1) * (2 - 1) ∧
      r.numVertices = (2 - 1) * (2 - 1) * 4 ∧
      r.verts.length = 4 * ((2 - 1) * (2 - 1)) ∧
      r.norms.length = 4 * ((2 - 1) * (2 - 1)) ∧
      r.verts = (cellList 2 2).flatMap (cellVals V3.zero gv4 2) ∧
      r.norms = (cellList 2 2).flatMap (cellVals Nrm.zeroN gn4 2) ∧
      ∀ k < (2 - 1) * (2 - 1), r.faces.get? k =
        some ⟨4, 4, some [4 * k, 4 * k + 1, 4 * k + 2, 4 * k + 3]⟩ :=
  claim_C9_face_count_invariant gv4 gn4 2 2 (by decide) (by decide)
    (by decide) (by decide)

end HMP

namespace HMP

/-- C6: with a skin count of 3 the parser materializes only the first
chunk's material and then, for each of the two remaining skins,
bounds-checks the 12-byte chunk head, re-reads type/width/height, skips
the payload, and bounds-checks again.  When all three chunks fit, the
returned cursor sits exactly after the third chunk (`c3`); if the third
chunk's head or payload overruns the buffer, the decode fails with
`truncatedInput` instead of silently stopping after two skins. -/
theorem claim_C6_skin_skip :
    (∀ (plen : Nat → Nat → Nat → Nat) (b : HmpBuffer) (c1 c2 c3 : Nat),
      u32At b 84 ≠ 0 →
      c1 = 96 + plen (u32At b 84) (u32At b 88) (u32At b 92) →
      c2 = c1 + 12 + plen (u32At b c1) (u32At b (c1 + 4)) (u32At b (c1 + 8)) →
      c3 = c2 + 12 + plen (u32At b c2) (u32At b (c2 + 4)) (u32At b (c2 + 8)) →
      c1 ≤ b.size → c1 + 12 ≤ b.size → c2 ≤ b.size → c2 + 12 ≤ b.size →
      c3 ≤ b.size →
      ReadFirstSkin plen b 3 84 =
        .ok (.fromSkin (u32At b 84) (u32At b 88) (u32At b 92), c3)) ∧
    (∀ (plen : Nat → Nat → Nat → Nat) (b : HmpBuffer) (c1 c2 : Nat),
      u32At b 84 ≠ 0 →
      c1 = 96 + plen (u32At b 84) (u32At b 88) (u32At b 92) →
      c2 = c1 + 12 + plen (u32At b c1) (u32At b (c1 + 4)) (u32At b (c1 + 8)) →
      c1 ≤ b.size → c1 + 12 ≤ b.size → c2 ≤ b.size →
      (b.size < c2 + 12 ∨
        (c2 + 12 ≤ b.size ∧ b.size <
          c2 + 12 + plen (u32At b c2) (u32At b (c2 + 4)) (u32At b (c2 + 8)))) →
      ReadFirstSkin plen b 3 84 = .error .truncatedInput) := by
  constructor
  · intro plen b c1 c2 c3 ht1 hc1 hc2 hc3 h1 h2 h3 h4 h5
    subst hc3
    subst hc2
    subst hc1
    rw [ReadFirstSkin_of_head
      (readSkinHead_nonzero (show 84 + 12 ≤ b.size by omega) ht1) h1]
    simp only [show (84 : Nat) + 4 = 88 from rfl,
      show (84 : Nat) + 8 = 92 from rfl, show (84 : Nat) + 12 = 96 from rfl]
    simp only [skipSkins]
    rw [SizeCheck_pass h2, exceptBindOk, readU32_eq_ok (by omega),
      exceptBindOk, readU32_eq_ok (by omega), exceptBindOk,
      readU32_eq_ok (by omega), exceptBindOk, SizeCheck_pass h3,
      exceptBindOk, SizeCheck_pass h4, exceptBindOk,
      readU32_eq_ok (by omega), exceptBindOk, readU32_eq_ok (by omega),
      exceptBindOk, readU32_eq_ok (by omega), exceptBindOk,
      SizeCheck_pass h5, exceptBindOk]
    rfl
  · intro plen b c1 c2 ht1 hc1 hc2 h1 h2 h3 htr
    subst hc2
    subst hc1
    rw [ReadFirstSkin_of_head
      (readSkinHead_nonzero (show 84 + 12 ≤ b.size by omega) ht1) h1]
    simp only [show (84 : Nat) + 4 = 88 from rfl,
      show (84 : Nat) + 8 = 92 from rfl, show (84 : Nat) + 12 = 96 from rfl]
    simp only [skipSkins]
    rw [SizeCheck_pass h2, exceptBindOk, readU32_eq_ok (by omega),
      exceptBindOk, readU32_eq_ok (by omega), exceptBindOk,
      readU32_eq_ok (by omega), exceptBindOk, SizeCheck_pass h3,
      exceptBindOk]
    rcases htr with htr | ⟨htr1, htr2⟩
    · rw [SizeCheck_fail htr, exceptBindErr]
      rfl
    · rw [SizeCheck_pass htr1, exceptBindOk, readU32_eq_ok (by omega),
        exceptBindOk, readU32_eq_ok (by omega), exceptBindOk,
        readU32_eq_ok (by omega), exceptBindOk, SizeCheck_fail htr2,
        exceptBindErr]
      rfl

theorem claim_C6_skin_skip_witness :
    ReadFirstSkin plen4 bSkins 3 84 = .ok (.fromSkin 1 0 0, 132) ∧
    ReadFirstSkin plen4 bSkinsTrunc 3 84 = .error .truncatedInput :=
  ⟨claim_C6_skin_skip.1 plen4 bSkins 100 116 132 (by decide) (by decide)
      (by decide) (by decide) (by decide) (by decide) (by decide)
      (by decide) (by decide),
   claim_C6_skin_skip.2 plen4 bSkinsTrunc 100 116 (by decide) (by decide)
      (by decide) (by decide) (by decide) (by decide)
      (Or.inl (by decide))⟩

/-- C7: when the first skin's 4-byte type tag reads as 0, the parser
skips 8 further bytes and re-reads the tag exactly once, at offset 12
from the chunk start, failing with `unreadableSkinChunk` if the re-read
tag is still 0; a nonzero tag (on the first read or on the retry)
proceeds to the 4-byte width and height that follow it. -/
theorem claim_C7_double_header_retry :
    (∀ (plen : Nat → Nat → Nat → Nat) (b : HmpBuffer) (cur : Nat),
      cur + 24 ≤ b.size → u32At b cur ≠ 0 →
      cur + 12 + plen (u32At b cur) (u32At b (cur + 4)) (u32At b (cur + 8))
        ≤ b.size →
      ReadFirstSkin plen b 1 cur = .ok
        (.fromSkin (u32At b cur) (u32At b (cur + 4)) (u32At b (cur + 8)),
         cur + 12 +
           plen (u32At b cur) (u32At b (cur + 4)) (u32At b (cur + 8)))) ∧
    (∀ (plen : Nat → Nat → Nat → Nat) (b : HmpBuffer) (cur : Nat),
      cur + 24 ≤ b.size → u32At b cur = 0 → u32At b (cur + 12) ≠ 0 →
      cur + 24 + plen (u32At b (cur + 12)) (u32At b (cur + 16))
        (u32At b (cur + 20)) ≤ b.size →
      ReadFirstSkin plen b 1 cur = .ok
        (.fromSkin (u32At b (cur + 12)) (u32At b (cur + 16))
          (u32At b (cur + 20)),
         cur + 24 + plen (u32At b (cur + 12)) (u32At b (cur + 16))
           (u32At b (cur + 20)))) ∧
    (∀ (plen : Nat → Nat → Nat → Nat) (b : HmpBuffer) (cur : Nat),
      cur + 24 ≤ b.size → u32At b cur = 0 → u32At b (cur + 12) = 0 →
      ReadFirstSkin plen b 1 cur = .error .unreadableSkinChunk) := by
  refine ⟨?_, ?_, ?_⟩
  · intro plen b cur h24 ht hp
    rw [ReadFirstSkin_of_head (readSkinHead_nonzero (by omega) ht) hp]
    rfl
  · intro plen b cur h24 ht0 ht1 hp
    rw [ReadFirstSkin_of_head (readSkinHead_retry h24 ht0 ht1) hp]
    rfl
  · intro plen b cur h24 ht0 ht1
    exact ReadFirstSkin_head_err (readSkinHead_fail (by omega) ht0 ht1)

theorem claim_C7_double_header_retry_witness :
    ReadFirstSkin plen0 bC7A 1 0 = .ok (.fromSkin 1 0 0, 12) ∧
    ReadFirstSkin plen0 bC7B 1 0 = .ok (.fromSkin 1 0 0, 24) ∧
    ReadFirstSkin plen0 bC7C 1 0 = .error .unreadableSkinChunk :=
  ⟨claim_C7_double_header_retry.1 plen0 bC7A 0 (by decide) (by decide)
      (by decide),
   claim_C7_double_header_retry.2.1 plen0 bC7B 0 (by decide) (by decide)
      (by decide) (by decide),
   claim_C7_double_header_retry.2.2 plen0 bC7C 0 (by decide) (by decide)
      (by decide)⟩

end HMP

namespace HMP

/-- C8: in both the HMP5 and the HMP7 vertex loops, the record decoded
for grid cell `(x, y)` has position.x = x * triSpacingX and
position.y = y * triSpacingY exactly, and
position.z = ((quantizedZ / 65535) - 0.5) * triSpacingX * 8.0 where
`quantizedZ` is the record's 16-bit height field. -/
theorem claim_C8_vertex_formulas :
    ∀ (b : HmpBuffer) (cur w h x y : Nat) (tx ty : ℚ)
      (l5 l7 : List (V3 × Nrm)),
      x < w → y < h →
      gridMap (decodeVertex5 b cur w tx ty) (h * w) = .ok l5 →
      gridMap (decodeVertex7 b cur w tx ty) (h * w) = .ok l7 →
      ∃ n5 n7 : Nrm,
        l5.get? (y * w + x) = some
          (⟨(x : ℚ) * tx, (y : ℚ) * ty,
            ((u16At b (cur + 4 * (y * w + x)) : ℚ) / 65535 - 1 / 2) * tx * 8⟩,
           n5) ∧
        l7.get? (y * w + x) = some
          (⟨(x : ℚ) * tx, (y : ℚ) * ty,
            ((u16At b (cur + 4 * (y * w + x)) : ℚ) / 65535 - 1 / 2) * tx * 8⟩,
           n7) := by
  intro b cur w h x y tx ty l5 l7 hx hy h5 h7
  have hi : y * w + x < h * w := by
    have h1 : (y + 1) * w ≤ h * w := Nat.mul_le_mul_right w (by omega)
    have h2 : (y + 1) * w = y * w + w := Nat.succ_mul y w
    omega
  obtain ⟨v5, hv5, hget5⟩ := gridMap_ok_get h5 hi
  obtain ⟨v7, hv7, hget7⟩ := gridMap_ok_get h7 hi
  have e5 := decodeVertex5_inv hv5
  have e7 := decodeVertex7_inv hv7
  refine ⟨(vertex5At b cur w tx ty (y * w + x)).2,
          (vertex7At b cur w tx ty (y * w + x)).2, ?_, ?_⟩
  · rw [hget5, e5]
    simp only [vertex5At]
    rw [grid_index_mod hx, grid_index_div hx]
  · rw [hget7, e7]
    simp only [vertex7At]
    rw [grid_index_mod hx, grid_index_div hx]

theorem gridC8v5_ok :
    gridMap (decodeVertex5 bC8 0 3 2 2) (2 * 3) = .ok gridC8v5 := by
  rw [grid5_ok (show (0 : Nat) + 4 * (2 * 3) ≤ bC8.size by decide)]
  norm_num [vertex5At, u16At, bC8, gridC8v5, List.range_succ]

theorem gridC8v7_ok :
    gridMap (decodeVertex7 bC8 0 3 2 2) (2 * 3) = .ok gridC8v7 := by
  rw [grid7_ok (show (0 : Nat) + 4 * (2 * 3) ≤ bC8.size by decide)]
  norm_num [vertex7At, u16At, toInt8, bC8, gridC8v7, List.range_succ]

theorem claim_C8_vertex_formulas_witness :
    (∃ n5 n7 : Nrm,
      gridC8v5.get? (1 * 3 + 2) = some
        (⟨((2 : Nat) : ℚ) * 2, ((1 : Nat) : ℚ) * 2,
          ((u16At bC8 (0 + 4 * (1 * 3 + 2)) : ℚ) / 65535 - 1 / 2) * 2 * 8⟩,
         n5) ∧
      gridC8v7.get? (1 * 3 + 2) = some
        (⟨((2 : Nat) : ℚ) * 2, ((1 : Nat) : ℚ) * 2,
          ((u16At bC8 (0 + 4 * (1 * 3 + 2)) : ℚ) / 65535 - 1 / 2) * 2 * 8⟩,
         n7)) ∧
    ((u16At bC8 (0 + 4 * (1 * 3 + 2)) : ℚ) / 65535 - 1 / 2) * 2 * 8 =
      -8 / 65535 :=
  ⟨claim_C8_vertex_formulas bC8 0 3 2 2 1 2 2 gridC8v5 gridC8v7
      (by decide) (by decide) gridC8v5_ok gridC8v7_ok,
   by norm_num [u16At, bC8]⟩

end HMP
